import Mathlib

/-!
Verification of the CUDA-GDB device-state mirror, notification channel,
event processor and info-command wrapper.

Each definition is a shallow embedding of the corresponding C function:
the struct `cuda_notification_info` and the `cuda_notification_*`
operations; the `cuda_system_t` hierarchy (`device_state_t`, `sm_state_t`,
`warp_state_t`, `lane_state_t`) with its invalidation and getter
operations; the event handlers of cuda-events.c; and the
`run_info_cuda_command` wrapper.  External collaborators (the hardware
debug API, the signal-delivery platform, the host-thread list) are
modelled as explicit oracle parameters: a fixed record of the values the
debug API would return, and a record describing which signal deliveries
succeed.  Machine integers are modelled as `Nat` with explicit masking
where a C bitwise complement occurs (`~x` on `uintN` becomes
`(2^N - 1) ^^^ x`).
-/

/- ------------------------------------------------------------------ -/
/- Section 1: the notification channel (cuda-notifications.c)          -/
/- ------------------------------------------------------------------ -/

/-- Payload of a notification callback (`CUDBGEventCallbackData`):
the `timeout` flag and the target host thread id. -/
structure CallbackData where
  timeout : Bool
  tid : Nat
  deriving Repr, DecidableEq

/-- The zeroed payload, as produced by `memset (…, 0, …)`. -/
def zeroCallbackData : CallbackData := ⟨false, 0⟩

/-- The shared record `cuda_notification_info`.  The mutex itself is not a
field here; the locking discipline is modelled separately (Section 1b). -/
structure NotificationInfo where
  initialized : Bool
  blocked : Bool
  pending_send : Bool
  aliased_event : Bool
  sent : Bool
  received : Bool
  tid : Nat
  pending_send_data : CallbackData
  deriving Repr, DecidableEq

/-- State left by `cuda_notification_initialize`: the record is zeroed and
then `initialized` is set. -/
def initNotificationInfo : NotificationInfo :=
  { initialized := true, blocked := false, pending_send := false,
    aliased_event := false, sent := false, received := false, tid := 0,
    pending_send_data := zeroCallbackData }

/-- `cuda_notification_reset`: clears `blocked`, `pending_send`, `sent`,
`received` and the recorded tid (the C code assigns `false`, i.e. 0). -/
def cuda_notification_reset (s : NotificationInfo) : NotificationInfo :=
  { s with blocked := false, pending_send := false, sent := false,
           received := false, tid := 0 }

/-- Environment for `cuda_notification_send`: whether the platform
supports per-thread signalling, whether a direct `tkill` to a given tid
succeeds, and which host thread (if any) the fallback iteration finds. -/
structure SendEnv where
  supports_tid : Bool
  direct_ok : Nat → Bool
  first_ok : Option Nat

/-- `cuda_notification_send`: try the given tid first (when the platform
supports it and the tid is non-zero); on failure fall back to the first
host thread that accepts the signal.  Returns the new record state and
the list of tids actually signalled (empty if every delivery failed,
in which case `sent` is left unchanged). -/
def cuda_notification_send (env : SendEnv) (data : CallbackData)
    (s : NotificationInfo) : NotificationInfo × List Nat :=
  if env.supports_tid && data.tid != 0 && env.direct_ok data.tid then
    ({ s with tid := data.tid, sent := true }, [data.tid])
  else
    match env.first_ok with
    | some t => ({ s with tid := t, sent := true }, [t])
    | none => (s, [])

/-- `cuda_notification_notify`: timeout resend / aliasing / pending /
blocked-buffering / direct send, exactly in the source's branch order. -/
def cuda_notification_notify (env : SendEnv) (data : CallbackData)
    (s : NotificationInfo) : NotificationInfo × List Nat :=
  if data.timeout then
    if s.sent && !s.received then cuda_notification_send env data s
    else (s, [])
  else if s.sent then ({ s with aliased_event := true }, [])
  else if s.pending_send then (s, [])
  else if s.blocked then
    ({ s with pending_send := true, pending_send_data := data }, [])
  else cuda_notification_send env data s

/-- `cuda_notification_block`: set `blocked`. -/
def cuda_notification_block (s : NotificationInfo) : NotificationInfo :=
  { s with blocked := true }

/-- `cuda_notification_accept`: clear `blocked`; if a send is pending,
send the buffered payload, clear `pending_send` and zero the buffer. -/
def cuda_notification_accept (env : SendEnv) (s : NotificationInfo) :
    NotificationInfo × List Nat :=
  let s1 := { s with blocked := false }
  if s1.pending_send then
    let r := cuda_notification_send env s1.pending_send_data s1
    ({ r.1 with pending_send := false, pending_send_data := zeroCallbackData },
     r.2)
  else (s1, [])

/-- `cuda_notification_analyze (ptid, ws)`: mark the notification received
when the stop is the SIGTRAP we sent.  `kind_stopped` models
`ws->kind == TARGET_WAITKIND_STOPPED`, `sig_trap` models
`ws->value.sig == TARGET_SIGNAL_TRAP`, `trap_expected` models
`tp->trap_expected`. -/
def cuda_notification_analyze (stopped_tid : Nat) (kind_stopped sig_trap
    trap_expected : Bool) (s : NotificationInfo) : NotificationInfo :=
  if s.sent && s.tid == stopped_tid && kind_stopped && sig_trap
      && !trap_expected then
    { s with received := true }
  else s

/-- `cuda_notification_mark_consumed`: when received, clear `sent`,
`received` and the tid. -/
def cuda_notification_mark_consumed (s : NotificationInfo) :
    NotificationInfo :=
  if s.received then { s with sent := false, received := false, tid := 0 }
  else s

/-- `cuda_notification_consume_pending`: clear `pending_send`. -/
def cuda_notification_consume_pending (s : NotificationInfo) :
    NotificationInfo :=
  { s with pending_send := false }

/-- The states of `cuda_notification_info` reachable through the
notification-channel operations, from the freshly initialized record,
with arbitrary payloads, delivery environments and stop analyses. -/
inductive NotifReachable : NotificationInfo → Prop
  | init : NotifReachable initNotificationInfo
  | reset {s} : NotifReachable s → NotifReachable (cuda_notification_reset s)
  | notify {s} (env : SendEnv) (data : CallbackData) :
      NotifReachable s → NotifReachable (cuda_notification_notify env data s).1
  | block {s} : NotifReachable s → NotifReachable (cuda_notification_block s)
  | accept {s} (env : SendEnv) :
      NotifReachable s → NotifReachable (cuda_notification_accept env s).1
  | analyze {s} (stopped_tid : Nat) (kind_stopped sig_trap trap_expected : Bool) :
      NotifReachable s →
      NotifReachable
        (cuda_notification_analyze stopped_tid kind_stopped sig_trap
          trap_expected s)
  | mark_consumed {s} :
      NotifReachable s → NotifReachable (cuda_notification_mark_consumed s)
  | consume_pending {s} :
      NotifReachable s → NotifReachable (cuda_notification_consume_pending s)

/-- The legal-state law of the notification record: never
`sent ∧ pending_send` and never `¬sent ∧ received`. -/
def notifLegal (s : NotificationInfo) : Bool :=
  !(s.sent && s.pending_send) && !(!s.sent && s.received)

lemma send_fields (env : SendEnv) (data : CallbackData)
    (s : NotificationInfo) :
    (cuda_notification_send env data s).1.pending_send = s.pending_send ∧
    (cuda_notification_send env data s).1.received = s.received ∧
    (cuda_notification_send env data s).1.blocked = s.blocked ∧
    (cuda_notification_send env data s).1.aliased_event = s.aliased_event ∧
    (cuda_notification_send env data s).1.pending_send_data
      = s.pending_send_data ∧
    ((cuda_notification_send env data s).1.sent = s.sent ∨
      (cuda_notification_send env data s).1.sent = true) := by
  unfold cuda_notification_send
  split
  · simp
  · cases env.first_ok <;> simp

lemma notifLegal_send (env : SendEnv) (data : CallbackData)
    (s : NotificationInfo) (hp : s.pending_send = false)
    (hr : s.sent = false → s.received = false) :
    notifLegal (cuda_notification_send env data s).1 = true := by
  obtain ⟨h1, h2, -, -, -, h6⟩ := send_fields env data s
  unfold notifLegal
  rw [h1, h2, hp]
  rcases h6 with h6 | h6 <;> rw [h6]
  · cases hs : s.sent
    · simp [hr hs]
    · simp
  · simp

lemma legal_notify (env : SendEnv) (data : CallbackData)
    (s : NotificationInfo) (h : notifLegal s = true) :
    notifLegal (cuda_notification_notify env data s).1 = true := by
  have hps : s.sent = true → s.pending_send = false := by
    intro hs; revert h; unfold notifLegal; rw [hs]
    cases s.pending_send <;> simp
  have hrc : s.sent = false → s.received = false := by
    intro hs; revert h; unfold notifLegal; rw [hs]
    cases s.received <;> simp
  unfold cuda_notification_notify
  split_ifs with h1 h2 h3 h4 h5
  · have hs : s.sent = true := by revert h2; cases s.sent <;> simp
    exact notifLegal_send env data s (hps hs) hrc
  · exact h
  · revert h; unfold notifLegal; rw [h3]
    cases s.pending_send <;> simp
  · exact h
  · have hs : s.sent = false := by revert h3; cases s.sent <;> simp
    revert h; unfold notifLegal; rw [hs, hrc hs]; simp
  · have hs : s.sent = false := by revert h3; cases s.sent <;> simp
    have hp : s.pending_send = false := by
      revert h4; cases s.pending_send <;> simp
    exact notifLegal_send env data s hp hrc

lemma legal_accept (env : SendEnv) (s : NotificationInfo)
    (h : notifLegal s = true) :
    notifLegal (cuda_notification_accept env s).1 = true := by
  unfold cuda_notification_accept
  dsimp only
  split_ifs with h1
  · have hp : s.pending_send = true := h1
    have hs : s.sent = false := by
      revert h; unfold notifLegal; rw [hp]
      cases s.sent <;> simp
    have hr : s.received = false := by
      revert h; unfold notifLegal; rw [hs]
      cases s.received <;> simp
    obtain ⟨-, h2, -, -, -, h6⟩ :=
      send_fields env { s with blocked := false }.pending_send_data
        { s with blocked := false }
    unfold notifLegal
    rcases h6 with h6 | h6 <;> simp_all
  · revert h; unfold notifLegal; simp

lemma legal_analyze (stopped_tid : Nat)
    (kind_stopped sig_trap trap_expected : Bool) (s : NotificationInfo)
    (h : notifLegal s = true) :
    notifLegal (cuda_notification_analyze stopped_tid kind_stopped sig_trap
      trap_expected s) = true := by
  unfold cuda_notification_analyze
  split_ifs with h1
  · have hs : s.sent = true := by revert h1; cases s.sent <;> simp
    revert h; unfold notifLegal; rw [hs]
    cases s.pending_send <;> simp
  · exact h

/-- C1.  In every state reachable through the notification-channel
operations (initialize, reset, notify, block, accept, analyze,
mark_consumed, consume_pending), the record never satisfies
`sent ∧ pending_send` and never satisfies `¬sent ∧ received`. -/
theorem C1_notification_legal_states (s : NotificationInfo)
    (h : NotifReachable s) : notifLegal s = true := by
  induction h with
  | init => decide
  | reset h ih => unfold cuda_notification_reset notifLegal; simp
  | notify env data h ih => exact legal_notify env data _ ih
  | block h ih => exact ih
  | accept env h ih => exact legal_accept env _ ih
  | analyze stopped_tid kind_stopped sig_trap trap_expected h ih =>
      exact legal_analyze stopped_tid kind_stopped sig_trap trap_expected _ ih
  | mark_consumed h ih =>
      unfold cuda_notification_mark_consumed
      split_ifs
      · unfold notifLegal; simp
      · exact ih
  | consume_pending h ih =>
      unfold cuda_notification_consume_pending notifLegal at *
      simp only [Bool.and_false, Bool.not_false, Bool.true_and]
      simp only [Bool.and_eq_true] at ih
      exact ih.2

/-- Witness for C1: the freshly initialized record is reachable and
satisfies the legal-state law. -/
theorem C1_notification_legal_states_witness :
    notifLegal initNotificationInfo = true :=
  C1_notification_legal_states initNotificationInfo NotifReachable.init

/-- `cuda_notification_send` succeeds for a payload exactly when the
direct per-thread delivery works or the fallback iteration finds a
thread. -/
def sendDelivers (env : SendEnv) (data : CallbackData) : Bool :=
  (env.supports_tid && data.tid != 0 && env.direct_ok data.tid)
    || env.first_ok.isSome

/-- C7.  From a state with nothing sent and nothing pending, `block()`
followed by a (non-timeout) `notify(p)` issues no signal and buffers `p`
into `pending_send_data` with `pending_send` set; a subsequent `accept()`
clears `blocked`, sends the buffered payload exactly once (setting
`sent`, assuming the platform delivers the signal) and clears
`pending_send`. -/
theorem C7_blocked_then_accept (s : NotificationInfo) (p : CallbackData)
    (env env' : SendEnv) (hs : s.sent = false) (hp : s.pending_send = false)
    (hto : p.timeout = false) (hdel : sendDelivers env' p = true) :
    (cuda_notification_notify env p (cuda_notification_block s)).2 = [] ∧
    (cuda_notification_notify env p (cuda_notification_block s)).1.pending_send
      = true ∧
    (cuda_notification_notify env p
      (cuda_notification_block s)).1.pending_send_data = p ∧
    (cuda_notification_notify env p (cuda_notification_block s)).1.sent
      = false ∧
    (cuda_notification_accept env'
      (cuda_notification_notify env p (cuda_notification_block s)).1).1.blocked
      = false ∧
    (cuda_notification_accept env'
      (cuda_notification_notify env p (cuda_notification_block s)).1).1.sent
      = true ∧
    (cuda_notification_accept env'
      (cuda_notification_notify env p
        (cuda_notification_block s)).1).1.pending_send = false ∧
    (cuda_notification_accept env'
      (cuda_notification_notify env p
        (cuda_notification_block s)).1).2.length = 1 := by
  have h1 : cuda_notification_notify env p (cuda_notification_block s)
      = ({ cuda_notification_block s with
            pending_send := true, pending_send_data := p }, []) := by
    unfold cuda_notification_notify cuda_notification_block
    simp [hto, hs, hp]
  rw [h1]
  refine ⟨rfl, rfl, rfl, hs, ?_⟩
  unfold cuda_notification_accept
  dsimp only
  rw [if_pos rfl]
  unfold cuda_notification_send sendDelivers at *
  dsimp only
  split_ifs with h2
  · exact ⟨rfl, rfl, rfl, rfl⟩
  · cases hff : env'.first_ok with
    | none =>
        rw [hff] at hdel
        simp only [Option.isSome_none, Bool.or_false] at hdel
        exact absurd hdel h2
    | some t =>
        exact ⟨rfl, rfl, rfl, rfl⟩

/-- Witness for C7 at a concrete state, payload and environment. -/
theorem C7_blocked_then_accept_witness :
    (initNotificationInfo.sent = false ∧
      initNotificationInfo.pending_send = false ∧
      (CallbackData.mk false 7).timeout = false ∧
      sendDelivers ⟨true, fun _ => true, none⟩ (CallbackData.mk false 7)
        = true) ∧
    (cuda_notification_notify ⟨true, fun _ => true, none⟩
      (CallbackData.mk false 7)
      (cuda_notification_block initNotificationInfo)).2 = [] ∧
    (cuda_notification_notify ⟨true, fun _ => true, none⟩
      (CallbackData.mk false 7)
      (cuda_notification_block initNotificationInfo)).1.pending_send = true ∧
    (cuda_notification_notify ⟨true, fun _ => true, none⟩
      (CallbackData.mk false 7)
      (cuda_notification_block
        initNotificationInfo)).1.pending_send_data = CallbackData.mk false 7 ∧
    (cuda_notification_notify ⟨true, fun _ => true, none⟩
      (CallbackData.mk false 7)
      (cuda_notification_block initNotificationInfo)).1.sent = false ∧
    (cuda_notification_accept ⟨true, fun _ => true, none⟩
      (cuda_notification_notify ⟨true, fun _ => true, none⟩
        (CallbackData.mk false 7)
        (cuda_notification_block initNotificationInfo)).1).1.blocked = false ∧
    (cuda_notification_accept ⟨true, fun _ => true, none⟩
      (cuda_notification_notify ⟨true, fun _ => true, none⟩
        (CallbackData.mk false 7)
        (cuda_notification_block initNotificationInfo)).1).1.sent = true ∧
    (cuda_notification_accept ⟨true, fun _ => true, none⟩
      (cuda_notification_notify ⟨true, fun _ => true, none⟩
        (CallbackData.mk false 7)
        (cuda_notification_block
          initNotificationInfo)).1).1.pending_send = false ∧
    (cuda_notification_accept ⟨true, fun _ => true, none⟩
      (cuda_notification_notify ⟨true, fun _ => true, none⟩
        (CallbackData.mk false 7)
        (cuda_notification_block initNotificationInfo)).1).2.length = 1 :=
  ⟨⟨rfl, rfl, rfl, by decide⟩,
   C7_blocked_then_accept initNotificationInfo (CallbackData.mk false 7)
     ⟨true, fun _ => true, none⟩ ⟨true, fun _ => true, none⟩
     rfl rfl rfl (by decide)⟩

/- ------------------------------------------------------------------ -/
/- Section 1b: the locking discipline of the notification channel      -/
/- ------------------------------------------------------------------ -/

/-- A primitive step of a notification-channel operation body:
`acquire`/`release` of the channel mutex (`cuda_notification_acquire_lock`
and `cuda_notification_release_lock`), or an `access` — one statement
that reads or writes the shared `cuda_notification_info` record. -/
inductive NotifStep
  | acquire
  | release
  | access
  deriving DecidableEq, Repr

/-- The public operations of the notification channel (§4.6). -/
inductive NotifOp
  | accept
  | block
  | notify
  | aliased_event
  | reset_aliased_event
  | pending
  | received
  | analyze
  | mark_consumed
  | consume_pending
  deriving DecidableEq, Repr

/-- The body of each public operation as its ordered list of lock
operations and shared-record accesses, transcribed from the source
(conditional accesses are listed in source order; every record access in
every branch appears between the same lock operations as in the code).
`consume_pending` writes `pending_send` without taking the mutex. -/
def notifOpSteps : NotifOp → List NotifStep
  | .accept =>
      [.acquire, .access, .access, .access, .access, .access, .release]
  | .block => [.acquire, .access, .release]
  | .notify =>
      [.acquire, .access, .access, .access, .access, .access, .access,
       .release]
  | .aliased_event => [.acquire, .access, .release]
  | .reset_aliased_event => [.acquire, .access, .release]
  | .pending => [.acquire, .access, .release]
  | .received => [.acquire, .access, .release]
  | .analyze => [.acquire, .access, .access, .release]
  | .mark_consumed => [.acquire, .access, .access, .access, .access, .release]
  | .consume_pending => [.access]

/-- A body is inside the lock up to the final release: only record
accesses, then the release as the last step. -/
def lockedBody : List NotifStep → Bool
  | [NotifStep.release] => true
  | NotifStep.access :: rest => lockedBody rest
  | _ => false

/-- An operation holds the mutex for the full duration of its body:
it acquires first, every shared-record access happens while the lock is
held, and it releases last. -/
def mutexGuarded (steps : List NotifStep) : Bool :=
  match steps with
  | NotifStep.acquire :: rest => lockedBody rest
  | _ => false

/-- Counterexample for C9: it is not the case that every public
notification-channel operation acquires the mutex for the full duration
of its body — `cuda_notification_consume_pending` writes `pending_send`
without taking the lock. -/
theorem C9_mutex_counterexample :
    ¬ (∀ op : NotifOp, mutexGuarded (notifOpSteps op) = true) := by
  intro h
  exact absurd (h NotifOp.consume_pending) (by decide)

/-- C9 (amended).  Every public notification-channel operation except
`consume_pending` acquires the channel mutex for the full duration of its
body; `consume_pending` accesses the record without the lock. -/
theorem C9_mutex_guarded_amended (op : NotifOp)
    (h : op ≠ NotifOp.consume_pending) :
    mutexGuarded (notifOpSteps op) = true := by
  cases op <;> first
    | decide
    | exact absurd rfl h

/-- Witness for C9 (amended) at the `accept` operation. -/
theorem C9_mutex_guarded_amended_witness :
    NotifOp.accept ≠ NotifOp.consume_pending ∧
      mutexGuarded (notifOpSteps NotifOp.accept) = true :=
  ⟨by decide, C9_mutex_guarded_amended NotifOp.accept (by decide)⟩

/- ------------------------------------------------------------------ -/
/- Section 2: the state mirror hierarchy (cuda-state.c)                -/
/- ------------------------------------------------------------------ -/

/-- `CuDim3`: a triple of uint32 coordinates. -/
structure CuDim3 where
  x : Nat
  y : Nat
  z : Nat
  deriving DecidableEq, Repr

/-- `lane_state_t`: per-lane cached attributes, each with a present
flag. -/
@[ext]
structure LaneState where
  thread_idx_p : Bool
  pc_p : Bool
  exception_p : Bool
  virtual_pc_p : Bool
  timestamp_p : Bool
  thread_idx : CuDim3
  pc : Nat
  exception : Nat
  virtual_pc : Nat
  timestamp : Nat
  deriving DecidableEq, Repr

/-- `warp_state_t`: per-warp cached attributes plus the lane array
(modelled as a function; only indices below the device's lane count are
meaningful).  The `kernel` handle is abstracted to a `Nat`. -/
@[ext]
structure WarpState where
  valid_p : Bool
  broken_p : Bool
  block_idx_p : Bool
  kernel_p : Bool
  grid_id_p : Bool
  valid_lanes_mask_p : Bool
  active_lanes_mask_p : Bool
  timestamp_p : Bool
  valid : Bool
  broken : Bool
  block_idx : CuDim3
  kernel : Nat
  grid_id : Nat
  valid_lanes_mask : Nat
  active_lanes_mask : Nat
  timestamp : Nat
  ln : Nat → LaneState

/-- `sm_state_t`: the two warp masks with their present flags, plus the
warp array. -/
@[ext]
structure SmState where
  valid_warps_mask_p : Bool
  broken_warps_mask_p : Bool
  valid_warps_mask : Nat
  broken_warps_mask : Nat
  wp : Nat → WarpState

/-- `device_state_t`.  The static descriptors (`num_sms`, `num_warps`,
`num_lanes`) are modelled as already-latched plain values (they are
cached once per session, cf. `cuda_system_set_device_spec`, and no claim
under study concerns their caching); the char-array descriptors are
omitted.  The per-device context registry is modelled separately in
Section 4. -/
@[ext]
structure DeviceState where
  valid_p : Bool
  filter_exception_state_p : Bool
  valid : Bool
  suspended : Bool
  num_sms : Nat
  num_warps : Nat
  num_lanes : Nat
  sm : Nat → SmState

/-- `lane_invalidate`: clear every per-lane present flag. -/
def lane_invalidate (l : LaneState) : LaneState :=
  { l with pc_p := false, virtual_pc_p := false, thread_idx_p := false,
           exception_p := false, timestamp_p := false }

/-- The per-warp part of `warp_invalidate`: invalidate every lane below
the device's lane count and clear every per-warp present flag.  (The C
function additionally clears the containing SM's two mask flags; that
effect is accounted for at the call sites below, which all clear them.) -/
def warp_state_invalidate (num_lanes : Nat) (w : WarpState) : WarpState :=
  { w with
    ln := fun ln_id => if ln_id < num_lanes then lane_invalidate (w.ln ln_id)
          else w.ln ln_id,
    valid_p := false, broken_p := false, block_idx_p := false,
    kernel_p := false, grid_id_p := false, valid_lanes_mask_p := false,
    active_lanes_mask_p := false, timestamp_p := false }

/-- `sm_invalidate`: when recursive, invalidate every warp below the
device's warp count (the C loop of `warp_invalidate` calls collapses to
this pointwise map); always clear the two mask flags. -/
def sm_invalidate (recursive : Bool) (num_warps num_lanes : Nat)
    (sm : SmState) : SmState :=
  let sm1 := if recursive then
      { sm with wp := fun wp_id => if wp_id < num_warps then
          warp_state_invalidate num_lanes (sm.wp wp_id) else sm.wp wp_id }
    else sm
  { sm1 with valid_warps_mask_p := false, broken_warps_mask_p := false }

/-- `device_invalidate`: recursively invalidate every SM below the
device's SM count, then clear `valid_p` and `filter_exception_state_p`.
(The C function also invalidates every record of the process-wide kernel
registry, which lives outside `device_state_t` and outside this model.) -/
def device_invalidate (d : DeviceState) : DeviceState :=
  { d with
    sm := fun sm_id => if sm_id < d.num_sms then
        sm_invalidate true d.num_warps d.num_lanes (d.sm sm_id)
      else d.sm sm_id,
    valid_p := false, filter_exception_state_p := false }

/-- `~x` on a uint32 value: complement within 32 bits. -/
def uint32_complement (x : Nat) : Nat := (2 ^ 32 - 1) ^^^ x

/-- `~x` on a uint64 value: complement within 64 bits. -/
def uint64_complement (x : Nat) : Nat := (2 ^ 64 - 1) ^^^ x

/-- `device_resume`: invalidate the whole device; if the device is not
marked suspended, stop there; otherwise invoke the port's
`resume_device`, clear `suspended` and clear the device's bit in the
system suspended-devices mask.  Returns (new device state, new
suspended-devices mask, whether the port's resume was invoked). -/
def device_resume (dev_id : Nat) (d : DeviceState)
    (suspended_devices_mask : Nat) : DeviceState × Nat × Bool :=
  let d1 := device_invalidate d
  if !d1.suspended then (d1, suspended_devices_mask, false)
  else ({ d1 with suspended := false },
        suspended_devices_mask &&& uint32_complement (1 <<< dev_id),
        true)

/-- The per-SM effect of `warp_single_step`'s else branch: the loop of
`warp_invalidate` calls for the warps named in the mask (each of which
also clears the SM's two mask flags) followed by the final
`sm_invalidate (…, NON_RECURSIVE)`. -/
def warp_single_step_sm_update (mask : Nat) (num_warps num_lanes : Nat)
    (sm0 : SmState) : SmState :=
  { sm0 with
    wp := fun i => if i < num_warps ∧ mask.testBit i
      then warp_state_invalidate num_lanes (sm0.wp i) else sm0.wp i,
    valid_warps_mask_p := false, broken_warps_mask_p := false }

/-- `warp_single_step`: the port's `single_step_warp` has returned
`single_stepped_warp_mask` (an oracle input here).  If software
preemption is on, invalidate the whole device; otherwise warn and
invalidate the whole device when a warp other than `wp_id` stepped, and
in any case invalidate the warps named in the mask within this SM and
clear the SM's two mask flags.  Returns (new device state, whether the
warning was issued). -/
def warp_single_step (software_preemption : Bool)
    (single_stepped_warp_mask : Nat) (sm_id wp_id : Nat)
    (d : DeviceState) : DeviceState × Bool :=
  if software_preemption then (device_invalidate d, false)
  else
    let warned := single_stepped_warp_mask
        &&& uint64_complement (1 <<< wp_id) != 0
    let d1 := if warned then device_invalidate d else d
    let sm1 := warp_single_step_sm_update single_stepped_warp_mask
      d1.num_warps d1.num_lanes (d1.sm sm_id)
    ({ d1 with sm := Function.update d1.sm sm_id sm1 }, warned)

/-- All present flags of a lane are clear. -/
def laneFlagsClear (l : LaneState) : Prop :=
  l.thread_idx_p = false ∧ l.pc_p = false ∧ l.exception_p = false ∧
  l.virtual_pc_p = false ∧ l.timestamp_p = false

/-- All present flags of a warp and of its first `nl` lanes are clear. -/
def warpFlagsClear (nl : Nat) (w : WarpState) : Prop :=
  w.valid_p = false ∧ w.broken_p = false ∧ w.block_idx_p = false ∧
  w.kernel_p = false ∧ w.grid_id_p = false ∧ w.valid_lanes_mask_p = false ∧
  w.active_lanes_mask_p = false ∧ w.timestamp_p = false ∧
  ∀ ln_id, ln_id < nl → laneFlagsClear (w.ln ln_id)

/-- The SM's mask flags and the subtree of its first `nw` warps are
clear. -/
def smSubtreeClear (nw nl : Nat) (sm : SmState) : Prop :=
  sm.valid_warps_mask_p = false ∧ sm.broken_warps_mask_p = false ∧
  ∀ wp_id, wp_id < nw → warpFlagsClear nl (sm.wp wp_id)

/-- Every cached flag in the device subtree is clear. -/
def deviceSubtreeClear (d : DeviceState) : Prop :=
  d.valid_p = false ∧ d.filter_exception_state_p = false ∧
  ∀ sm_id, sm_id < d.num_sms →
    smSubtreeClear d.num_warps d.num_lanes (d.sm sm_id)

lemma lane_invalidate_clear (l : LaneState) :
    laneFlagsClear (lane_invalidate l) := by
  simp [laneFlagsClear, lane_invalidate]

lemma warp_state_invalidate_clear (nl : Nat) (w : WarpState) :
    warpFlagsClear nl (warp_state_invalidate nl w) := by
  refine ⟨rfl, rfl, rfl, rfl, rfl, rfl, rfl, rfl, ?_⟩
  intro ln_id hlt
  simp only [warp_state_invalidate]
  rw [if_pos hlt]
  exact lane_invalidate_clear _

lemma sm_invalidate_wp (nw nl : Nat) (sm : SmState) (wp_id : Nat) :
    (sm_invalidate true nw nl sm).wp wp_id
      = if wp_id < nw then warp_state_invalidate nl (sm.wp wp_id)
        else sm.wp wp_id := rfl

lemma sm_invalidate_clear (nw nl : Nat) (sm : SmState) :
    smSubtreeClear nw nl (sm_invalidate true nw nl sm) := by
  refine ⟨rfl, rfl, ?_⟩
  intro wp_id hlt
  rw [warpFlagsClear.eq_def] at *
  rw [sm_invalidate_wp, if_pos hlt]
  exact warp_state_invalidate_clear nl _

lemma device_invalidate_sm (d : DeviceState) (sm_id : Nat) :
    (device_invalidate d).sm sm_id
      = if sm_id < d.num_sms then
          sm_invalidate true d.num_warps d.num_lanes (d.sm sm_id)
        else d.sm sm_id := rfl

lemma device_invalidate_clear (d : DeviceState) :
    deviceSubtreeClear (device_invalidate d) := by
  refine ⟨rfl, rfl, ?_⟩
  intro sm_id hlt
  rw [device_invalidate_sm, if_pos (show sm_id < d.num_sms from hlt)]
  exact sm_invalidate_clear _ _ _

lemma lane_invalidate_idem (l : LaneState) :
    lane_invalidate (lane_invalidate l) = lane_invalidate l := rfl

lemma warp_state_invalidate_idem (nl : Nat) (w : WarpState) :
    warp_state_invalidate nl (warp_state_invalidate nl w)
      = warp_state_invalidate nl w := by
  unfold warp_state_invalidate
  ext1 <;> try rfl
  funext ln_id
  by_cases h : ln_id < nl <;> simp [h, lane_invalidate_idem]

/-- The device descriptors and the suspended flag are unchanged by
invalidation. -/
lemma device_invalidate_nums (d : DeviceState) :
    (device_invalidate d).num_sms = d.num_sms ∧
    (device_invalidate d).num_warps = d.num_warps ∧
    (device_invalidate d).num_lanes = d.num_lanes ∧
    (device_invalidate d).suspended = d.suspended := ⟨rfl, rfl, rfl, rfl⟩

/-- Re-running the single-step SM update on an already fully invalidated
SM changes nothing. -/
lemma warp_single_step_sm_update_absorb (mask nw nl : Nat) (sm : SmState) :
    warp_single_step_sm_update mask nw nl (sm_invalidate true nw nl sm)
      = sm_invalidate true nw nl sm := by
  unfold warp_single_step_sm_update
  ext1 <;> try rfl
  funext i
  simp only [sm_invalidate_wp]
  by_cases hi : i < nw
  · by_cases hb : mask.testBit i
    · simp [hi, hb, warp_state_invalidate_idem]
    · simp [hi, hb]
  · simp [hi]

/-- C3.  `warp_single_step(dev, sm, wp)` invokes the port's single-step
(the returned mask is the oracle input `mask`); then: with software
preemption on it invalidates the whole device's cached state; otherwise,
if the mask contains any warp other than `wp`, it warns and invalidates
the whole device; otherwise it invalidates exactly the warps in the
returned mask plus the SM's valid-warps and broken-warps mask caches and
no other cached state (the result is precisely the stated update of the
input state). -/
theorem C3_warp_single_step (swp : Bool) (mask : Nat) (sm_id wp_id : Nat)
    (d : DeviceState) (hsm : sm_id < d.num_sms) :
    (swp = true →
      warp_single_step swp mask sm_id wp_id d = (device_invalidate d, false))
    ∧
    (swp = false → mask &&& uint64_complement (1 <<< wp_id) ≠ 0 →
      warp_single_step swp mask sm_id wp_id d = (device_invalidate d, true))
    ∧
    (swp = false → mask &&& uint64_complement (1 <<< wp_id) = 0 →
      warp_single_step swp mask sm_id wp_id d =
        ({ d with sm := (Function.update d.sm sm_id
            (warp_single_step_sm_update mask d.num_warps d.num_lanes
              (d.sm sm_id))) }, false)) := by
  have hsm' : (device_invalidate d).sm sm_id
      = sm_invalidate true d.num_warps d.num_lanes (d.sm sm_id) := by
    rw [device_invalidate_sm, if_pos hsm]
  refine ⟨?_, ?_, ?_⟩
  · intro h
    unfold warp_single_step
    rw [h]
    simp
  · intro h hne
    have hwarn : (mask &&& uint64_complement (1 <<< wp_id) != 0) = true := by
      simpa using hne
    unfold warp_single_step
    rw [h]
    simp only [Bool.false_eq_true, if_false, hwarn, if_true]
    have habs : warp_single_step_sm_update mask (device_invalidate d).num_warps
        (device_invalidate d).num_lanes ((device_invalidate d).sm sm_id)
        = (device_invalidate d).sm sm_id := by
      rw [hsm']
      exact warp_single_step_sm_update_absorb mask d.num_warps d.num_lanes
        (d.sm sm_id)
    rw [habs, Function.update_eq_self]
  · intro h hz
    have hwarn : (mask &&& uint64_complement (1 <<< wp_id) != 0) = false := by
      simpa using hz
    unfold warp_single_step
    rw [h]
    simp only [Bool.false_eq_true, if_false, hwarn]

/-- A fully absent lane, used in concrete test states. -/
def exampleLane : LaneState :=
  ⟨false, false, false, false, false, ⟨0, 0, 0⟩, 0, 0, 0, 0⟩

/-- A fully absent warp. -/
def exampleWarp : WarpState :=
  { valid_p := false, broken_p := false, block_idx_p := false,
    kernel_p := false, grid_id_p := false, valid_lanes_mask_p := false,
    active_lanes_mask_p := false, timestamp_p := false, valid := false,
    broken := false, block_idx := ⟨0, 0, 0⟩, kernel := 0, grid_id := 0,
    valid_lanes_mask := 0, active_lanes_mask := 0, timestamp := 0,
    ln := fun _ => exampleLane }

/-- A fully absent SM. -/
def exampleSm : SmState :=
  { valid_warps_mask_p := false, broken_warps_mask_p := false,
    valid_warps_mask := 0, broken_warps_mask := 0,
    wp := fun _ => exampleWarp }

/-- A small concrete device (1 SM, 8 warps, 4 lanes), not suspended. -/
def exampleDevice : DeviceState :=
  { valid_p := false, filter_exception_state_p := false, valid := false,
    suspended := false, num_sms := 1, num_warps := 8, num_lanes := 4,
    sm := fun _ => exampleSm }

/-- The same device, marked suspended. -/
def exampleDeviceSuspended : DeviceState :=
  { exampleDevice with suspended := true }

/-- Witness for C3 at a concrete device (software-preemption branch). -/
theorem C3_warp_single_step_witness :
    warp_single_step true 32 0 5 exampleDevice
      = (device_invalidate exampleDevice, false) :=
  (C3_warp_single_step true 32 0 5 exampleDevice (by decide)).1 rfl

lemma device_resume_eq_not_suspended (dev_id : Nat) (d : DeviceState)
    (mask : Nat) (h : d.suspended = false) :
    device_resume dev_id d mask = (device_invalidate d, mask, false) := by
  unfold device_resume
  have h1 : (device_invalidate d).suspended = false := h
  simp [h1]

lemma device_resume_eq_suspended (dev_id : Nat) (d : DeviceState)
    (mask : Nat) (h : d.suspended = true) :
    device_resume dev_id d mask
      = ({ device_invalidate d with suspended := false },
         mask &&& uint32_complement (1 <<< dev_id), true) := by
  unfold device_resume
  have h1 : (device_invalidate d).suspended = true := h
  simp [h1]

/-- Counterexample for C5: `device_resume` does not invoke the port's
`resume(dev)` when the device is not marked suspended — it returns right
after the invalidation, contrary to the claim's unconditional "invokes
the debug-API port's resume(dev)". -/
theorem C5_device_resume_counterexample :
    exampleDevice.suspended = false ∧
      (device_resume 0 exampleDevice 1).2.2 = false := ⟨rfl, rfl⟩

/-- C5 (amended).  `device_resume(dev)` invalidates the entire cached
subtree under `dev` (every SM's mask flags and every warp's and lane's
present flags), clears `valid_p` and `filter_exception_state_p`, and —
when and only when the device is marked suspended — invokes the port's
`resume(dev)`, clears `suspended` and clears `dev`'s bit in the system
suspended-devices mask; when the device is not suspended the port is not
invoked and the mask is unchanged. -/
theorem C5_device_resume_amended (dev_id : Nat) (d : DeviceState)
    (mask : Nat) :
    deviceSubtreeClear (device_resume dev_id d mask).1 ∧
    (device_resume dev_id d mask).1.suspended = false ∧
    (device_resume dev_id d mask).2.2 = d.suspended ∧
    (d.suspended = true →
      (device_resume dev_id d mask).2.1
        = mask &&& uint32_complement (1 <<< dev_id)) ∧
    (d.suspended = false → (device_resume dev_id d mask).2.1 = mask) ∧
    (d.suspended = true → dev_id < 32 →
      ((device_resume dev_id d mask).2.1).testBit dev_id = false) := by
  have hbit : dev_id < 32 →
      (mask &&& uint32_complement (1 <<< dev_id)).testBit dev_id = false := by
    intro hlt
    unfold uint32_complement
    rw [Nat.testBit_and, Nat.testBit_xor, Nat.shiftLeft_eq, one_mul,
      Nat.testBit_two_pow_self, Nat.testBit_two_pow_sub_one]
    simp [hlt]
  rcases Bool.eq_false_or_eq_true d.suspended with hs | hs
  · rw [device_resume_eq_suspended dev_id d mask hs]
    refine ⟨?_, rfl, hs.symm, fun _ => rfl, ?_, fun _ h32 => hbit h32⟩
    · exact device_invalidate_clear d
    · intro hcon; rw [hcon] at hs; exact absurd hs (by decide)
  · rw [device_resume_eq_not_suspended dev_id d mask hs]
    refine ⟨device_invalidate_clear d, hs, hs.symm, ?_, fun _ => rfl, ?_⟩
    · intro hcon; rw [hcon] at hs; exact absurd hs (by decide)
    · intro hcon; rw [hcon] at hs; exact absurd hs (by decide)

/-- Witness for C5 (amended) at a concrete suspended device. -/
theorem C5_device_resume_amended_witness :
    exampleDeviceSuspended.suspended = true ∧
      (device_resume 0 exampleDeviceSuspended 1).2.1
        = 1 &&& uint32_complement (1 <<< 0) :=
  ⟨rfl, (C5_device_resume_amended 0 exampleDeviceSuspended 1).2.2.2.1 rfl⟩

/- ------------------------------------------------------------------ -/
/- Section 3: warp-mask and lane-PC getters of a single warp           -/
/- ------------------------------------------------------------------ -/

/-- The debug-API oracle for one warp: the values
`cuda_api_read_valid_lanes`, `cuda_api_read_active_lanes`,
`cuda_api_read_pc` and `cuda_api_read_virtual_pc` would write.  The
oracle is fixed: the hardware is frozen while the device is suspended. -/
structure WarpApi where
  valid_lanes : Nat
  active_lanes : Nat
  pc : Nat → Nat
  virtual_pc : Nat → Nat

/-- Context of the warp getters: the device's lane count, the current
`cuda_clock` value, the warp's bit of `sm_get_valid_warps_mask`
(`warp_is_valid`; stable under a fixed oracle, so modelled as a plain
boolean), and the oracle. -/
structure WarpCtx where
  num_lanes : Nat
  clock : Nat
  warp_valid : Bool
  api : WarpApi

/-- The value `warp_get_valid_lanes_mask` latches: 0 when the warp is
not valid (the API is not consulted), the API's mask otherwise. -/
def effValidLanesMask (c : WarpCtx) : Nat :=
  if c.warp_valid then c.api.valid_lanes else 0

/-- `warp_get_valid_lanes_mask`: cached, else fetch (0 for an invalid
warp); stamps the warp timestamp on first fetch. -/
def warp_get_valid_lanes_mask (c : WarpCtx) (w : WarpState) :
    Nat × WarpState :=
  if w.valid_lanes_mask_p then (w.valid_lanes_mask, w)
  else
    let m := effValidLanesMask c
    let w1 := { w with valid_lanes_mask := m, valid_lanes_mask_p := true }
    let w2 := if w1.timestamp_p then w1
      else { w1 with timestamp_p := true, timestamp := c.clock }
    (m, w2)

/-- `warp_get_active_lanes_mask`: cached, else fetch. -/
def warp_get_active_lanes_mask (c : WarpCtx) (w : WarpState) :
    Nat × WarpState :=
  if w.active_lanes_mask_p then (w.active_lanes_mask, w)
  else (c.api.active_lanes,
    { w with active_lanes_mask := c.api.active_lanes,
             active_lanes_mask_p := true })

/-- `warp_get_divergent_lanes_mask`: `valid & ~active` (uint32). -/
def warp_get_divergent_lanes_mask (c : WarpCtx) (w : WarpState) :
    Nat × WarpState :=
  let r1 := warp_get_valid_lanes_mask c w
  let r2 := warp_get_active_lanes_mask c r1.2
  (r1.1 &&& uint32_complement r2.1, r2.2)

/-- `lane_is_valid`: bit of the warp's valid-lanes mask; stamps the lane
timestamp on first call. -/
def lane_is_valid (c : WarpCtx) (ln_id : Nat) (w : WarpState) :
    Bool × WarpState :=
  let r := warp_get_valid_lanes_mask c w
  let l := r.2.ln ln_id
  let l2 := { l with timestamp_p := true, timestamp := c.clock }
  let w2 := if l.timestamp_p then r.2
    else { r.2 with ln := Function.update r.2.ln ln_id l2 }
  (r.1.testBit ln_id, w2)

/-- `lane_is_active`: bit of the warp's active-lanes mask.  The
`gdb_assert (lane_is_valid …)` at the top evaluates its argument, so its
cache effects are threaded through. -/
def lane_is_active (c : WarpCtx) (ln_id : Nat) (w : WarpState) :
    Bool × WarpState :=
  let r0 := lane_is_valid c ln_id w
  let r := warp_get_active_lanes_mask c r0.2
  (r.1.testBit ln_id, r.2)

/-- `lane_is_divergent`: bit of the warp's divergent-lanes mask (after
the `gdb_assert (lane_is_valid …)`). -/
def lane_is_divergent (c : WarpCtx) (ln_id : Nat) (w : WarpState) :
    Bool × WarpState :=
  let r0 := lane_is_valid c ln_id w
  let r := warp_get_divergent_lanes_mask c r0.2
  (r.1.testBit ln_id, r.2)

/-- Write a fetched PC into one lane's cache slot
(`wp->ln[i].pc_p = CACHED; wp->ln[i].pc = pc`). -/
def lane_set_pc_cached (pc ln_id : Nat) (w : WarpState) : WarpState :=
  let l2 := { w.ln ln_id with pc_p := true, pc := pc }
  { w with ln := Function.update w.ln ln_id l2 }

/-- One iteration of the propagation loop in `lane_get_pc`:
`if (lane_is_valid (…) && lane_is_active (…)) { cache the pc }`,
with the short-circuit evaluation of `&&` threaded. -/
def lane_pc_propagate_step (c : WarpCtx) (pc ln_id : Nat) (w : WarpState) :
    WarpState :=
  let rv := lane_is_valid c ln_id w
  if rv.1 then
    let ra := lane_is_active c ln_id rv.2
    if ra.1 then lane_set_pc_cached pc ln_id ra.2 else ra.2
  else rv.2

/-- The propagation loop of `lane_get_pc` over all lanes. -/
def lane_pc_propagate (c : WarpCtx) (pc : Nat) (w : WarpState) :
    WarpState :=
  (List.range c.num_lanes).foldl
    (fun acc i => lane_pc_propagate_step c pc i acc) w

/-- `lane_get_pc`: after the asserts (whose `lane_is_valid` evaluation is
threaded), return the cached pc if present; otherwise fetch it from the
API, cache it, and if the lane is active propagate the value to every
valid active lane.  Returns ((pc value, number of `cuda_api_read_pc`
calls performed), new state). -/
def lane_get_pc (c : WarpCtx) (ln_id : Nat) (w : WarpState) :
    (Nat × Nat) × WarpState :=
  let r0 := lane_is_valid c ln_id w
  let w1 := r0.2
  if (w1.ln ln_id).pc_p then (((w1.ln ln_id).pc, 0), w1)
  else
    let pc := c.api.pc ln_id
    let w2 := lane_set_pc_cached pc ln_id w1
    let ra := lane_is_active c ln_id w2
    if ra.1 then ((pc, 1), lane_pc_propagate c pc ra.2)
    else ((pc, 1), ra.2)

/-- Write a fetched virtual PC into one lane's cache slot. -/
def lane_set_virtual_pc_cached (vpc ln_id : Nat) (w : WarpState) :
    WarpState :=
  let l2 := { w.ln ln_id with virtual_pc_p := true, virtual_pc := vpc }
  { w with ln := Function.update w.ln ln_id l2 }

/-- One iteration of the propagation loop in `lane_get_virtual_pc`. -/
def lane_virtual_pc_propagate_step (c : WarpCtx) (vpc ln_id : Nat)
    (w : WarpState) : WarpState :=
  let rv := lane_is_valid c ln_id w
  if rv.1 then
    let ra := lane_is_active c ln_id rv.2
    if ra.1 then lane_set_virtual_pc_cached vpc ln_id ra.2 else ra.2
  else rv.2

/-- The propagation loop of `lane_get_virtual_pc` over all lanes. -/
def lane_virtual_pc_propagate (c : WarpCtx) (vpc : Nat) (w : WarpState) :
    WarpState :=
  (List.range c.num_lanes).foldl
    (fun acc i => lane_virtual_pc_propagate_step c vpc i acc) w

/-- `lane_get_virtual_pc`: same shape as `lane_get_pc` with the
virtual-PC slot and `cuda_api_read_virtual_pc`. -/
def lane_get_virtual_pc (c : WarpCtx) (ln_id : Nat) (w : WarpState) :
    (Nat × Nat) × WarpState :=
  let r0 := lane_is_valid c ln_id w
  let w1 := r0.2
  if (w1.ln ln_id).virtual_pc_p then (((w1.ln ln_id).virtual_pc, 0), w1)
  else
    let vpc := c.api.virtual_pc ln_id
    let w2 := lane_set_virtual_pc_cached vpc ln_id w1
    let ra := lane_is_active c ln_id w2
    if ra.1 then ((vpc, 1), lane_virtual_pc_propagate c vpc ra.2)
    else ((vpc, 1), ra.2)

/-- The warp states reachable through the warp-mask and lane getters and
warp invalidation, starting from the zeroed warp state.  The asserted
preconditions of the lane getters (`ln_id` in range, `lane_is_valid`)
are carried as hypotheses of the corresponding steps. -/
inductive WarpReachable (c : WarpCtx) : WarpState → Prop
  | init : WarpReachable c exampleWarp
  | get_valid_mask {w} : WarpReachable c w →
      WarpReachable c (warp_get_valid_lanes_mask c w).2
  | get_active_mask {w} : WarpReachable c w →
      WarpReachable c (warp_get_active_lanes_mask c w).2
  | get_divergent_mask {w} : WarpReachable c w →
      WarpReachable c (warp_get_divergent_lanes_mask c w).2
  | is_valid {w} (ln_id : Nat) (hlt : ln_id < c.num_lanes) :
      WarpReachable c w → WarpReachable c (lane_is_valid c ln_id w).2
  | is_active {w} (ln_id : Nat) (hlt : ln_id < c.num_lanes)
      (hv : (lane_is_valid c ln_id w).1 = true) :
      WarpReachable c w → WarpReachable c (lane_is_active c ln_id w).2
  | is_divergent {w} (ln_id : Nat) (hlt : ln_id < c.num_lanes)
      (hv : (lane_is_valid c ln_id w).1 = true) :
      WarpReachable c w → WarpReachable c (lane_is_divergent c ln_id w).2
  | get_pc {w} (ln_id : Nat) (hlt : ln_id < c.num_lanes)
      (hv : (lane_is_valid c ln_id w).1 = true) :
      WarpReachable c w → WarpReachable c (lane_get_pc c ln_id w).2
  | get_virtual_pc {w} (ln_id : Nat) (hlt : ln_id < c.num_lanes)
      (hv : (lane_is_valid c ln_id w).1 = true) :
      WarpReachable c w → WarpReachable c (lane_get_virtual_pc c ln_id w).2
  | invalidate {w} : WarpReachable c w →
      WarpReachable c (warp_state_invalidate c.num_lanes w)

/-- The mask caches, when present, hold exactly what a fetch would have
produced (they are only ever filled from the oracle). -/
def maskConsistent (c : WarpCtx) (w : WarpState) : Prop :=
  (w.valid_lanes_mask_p = true → w.valid_lanes_mask = effValidLanesMask c) ∧
  (w.active_lanes_mask_p = true → w.active_lanes_mask = c.api.active_lanes)

/-- Coherence of the PC caches across the valid active lanes: as soon as
one of them holds a cached PC, they all hold the same one. -/
def pcCoherent (c : WarpCtx) (w : WarpState) : Prop :=
  ∀ i j, i < c.num_lanes → j < c.num_lanes →
    (effValidLanesMask c).testBit i = true →
    c.api.active_lanes.testBit i = true →
    (effValidLanesMask c).testBit j = true →
    c.api.active_lanes.testBit j = true →
    (w.ln i).pc_p = true →
    ((w.ln j).pc_p = true ∧ (w.ln j).pc = (w.ln i).pc)

/-- Same coherence for the virtual-PC caches. -/
def vpcCoherent (c : WarpCtx) (w : WarpState) : Prop :=
  ∀ i j, i < c.num_lanes → j < c.num_lanes →
    (effValidLanesMask c).testBit i = true →
    c.api.active_lanes.testBit i = true →
    (effValidLanesMask c).testBit j = true →
    c.api.active_lanes.testBit j = true →
    (w.ln i).virtual_pc_p = true →
    ((w.ln j).virtual_pc_p = true ∧
      (w.ln j).virtual_pc = (w.ln i).virtual_pc)

/-- The full reachability invariant of the warp cache. -/
def warpInv (c : WarpCtx) (w : WarpState) : Prop :=
  maskConsistent c w ∧ pcCoherent c w ∧ vpcCoherent c w

/-- The PC-relevant cache fields of a lane. -/
def laneCacheFields (l : LaneState) : Bool × Nat × Bool × Nat :=
  (l.pc_p, l.pc, l.virtual_pc_p, l.virtual_pc)

lemma wgvlm_cached (c : WarpCtx) (w : WarpState)
    (hp : w.valid_lanes_mask_p = true) :
    warp_get_valid_lanes_mask c w = (w.valid_lanes_mask, w) := by
  simp [warp_get_valid_lanes_mask, hp]

lemma wgvlm_nc_ts (c : WarpCtx) (w : WarpState)
    (hp : w.valid_lanes_mask_p = false) (ht : w.timestamp_p = true) :
    warp_get_valid_lanes_mask c w
      = (effValidLanesMask c,
         { w with valid_lanes_mask := effValidLanesMask c,
                  valid_lanes_mask_p := true }) := by
  simp [warp_get_valid_lanes_mask, hp, ht]

lemma wgvlm_nc_nts (c : WarpCtx) (w : WarpState)
    (hp : w.valid_lanes_mask_p = false) (ht : w.timestamp_p = false) :
    warp_get_valid_lanes_mask c w
      = (effValidLanesMask c,
         { w with valid_lanes_mask := effValidLanesMask c,
                  valid_lanes_mask_p := true, timestamp_p := true,
                  timestamp := c.clock }) := by
  simp [warp_get_valid_lanes_mask, hp, ht]

lemma wgvlm_spec (c : WarpCtx) (w : WarpState) (h : maskConsistent c w) :
    (warp_get_valid_lanes_mask c w).1 = effValidLanesMask c ∧
    maskConsistent c (warp_get_valid_lanes_mask c w).2 ∧
    ∀ j, laneCacheFields ((warp_get_valid_lanes_mask c w).2.ln j)
      = laneCacheFields (w.ln j) := by
  rcases Bool.eq_false_or_eq_true w.valid_lanes_mask_p with hp | hp
  · rw [wgvlm_cached c w hp]
    exact ⟨h.1 hp, h, fun j => rfl⟩
  · rcases Bool.eq_false_or_eq_true w.timestamp_p with ht | ht
    · rw [wgvlm_nc_ts c w hp ht]
      refine ⟨rfl, ⟨fun _ => rfl, fun ha => h.2 ha⟩, fun j => rfl⟩
    · rw [wgvlm_nc_nts c w hp ht]
      refine ⟨rfl, ⟨fun _ => rfl, fun ha => h.2 ha⟩, fun j => rfl⟩

lemma wgalm_cached (c : WarpCtx) (w : WarpState)
    (hp : w.active_lanes_mask_p = true) :
    warp_get_active_lanes_mask c w = (w.active_lanes_mask, w) := by
  simp [warp_get_active_lanes_mask, hp]

lemma wgalm_nc (c : WarpCtx) (w : WarpState)
    (hp : w.active_lanes_mask_p = false) :
    warp_get_active_lanes_mask c w
      = (c.api.active_lanes,
         { w with active_lanes_mask := c.api.active_lanes,
                  active_lanes_mask_p := true }) := by
  simp [warp_get_active_lanes_mask, hp]

lemma wgalm_spec (c : WarpCtx) (w : WarpState) (h : maskConsistent c w) :
    (warp_get_active_lanes_mask c w).1 = c.api.active_lanes ∧
    maskConsistent c (warp_get_active_lanes_mask c w).2 ∧
    ∀ j, laneCacheFields ((warp_get_active_lanes_mask c w).2.ln j)
      = laneCacheFields (w.ln j) := by
  rcases Bool.eq_false_or_eq_true w.active_lanes_mask_p with hp | hp
  · rw [wgalm_cached c w hp]
    exact ⟨h.2 hp, h, fun j => rfl⟩
  · rw [wgalm_nc c w hp]
    exact ⟨rfl, ⟨fun hv => h.1 hv, fun _ => rfl⟩, fun j => rfl⟩

lemma lane_is_valid_fst (c : WarpCtx) (ln_id : Nat) (w : WarpState) :
    (lane_is_valid c ln_id w).1
      = (warp_get_valid_lanes_mask c w).1.testBit ln_id := rfl

lemma lane_is_valid_spec (c : WarpCtx) (ln_id : Nat) (w : WarpState)
    (h : maskConsistent c w) :
    (lane_is_valid c ln_id w).1
      = (effValidLanesMask c).testBit ln_id ∧
    maskConsistent c (lane_is_valid c ln_id w).2 ∧
    ∀ j, laneCacheFields ((lane_is_valid c ln_id w).2.ln j)
      = laneCacheFields (w.ln j) := by
  obtain ⟨hv, hc, hf⟩ := wgvlm_spec c w h
  refine ⟨by rw [lane_is_valid_fst, hv], ?_, ?_⟩
  · show maskConsistent c
      (if ((warp_get_valid_lanes_mask c w).2.ln ln_id).timestamp_p
       then (warp_get_valid_lanes_mask c w).2
       else _)
    split_ifs
    · exact hc
    · exact ⟨fun hb => hc.1 hb, fun hb => hc.2 hb⟩
  · intro j
    show laneCacheFields
      ((if ((warp_get_valid_lanes_mask c w).2.ln ln_id).timestamp_p
        then (warp_get_valid_lanes_mask c w).2
        else _).ln j) = _
    split_ifs
    · exact hf j
    · rcases eq_or_ne j ln_id with hj | hj
      · subst hj
        rw [show ({ (warp_get_valid_lanes_mask c w).2 with
            ln := Function.update (warp_get_valid_lanes_mask c w).2.ln j
              ({ (warp_get_valid_lanes_mask c w).2.ln j with
                 timestamp_p := true, timestamp := c.clock }) } : WarpState).ln
            j = Function.update (warp_get_valid_lanes_mask c w).2.ln j
              ({ (warp_get_valid_lanes_mask c w).2.ln j with
                 timestamp_p := true, timestamp := c.clock }) j from rfl]
        rw [Function.update_same]
        rw [← hf j]
        rfl
      · rw [show ({ (warp_get_valid_lanes_mask c w).2 with
            ln := Function.update (warp_get_valid_lanes_mask c w).2.ln ln_id
              ({ (warp_get_valid_lanes_mask c w).2.ln ln_id with
                 timestamp_p := true, timestamp := c.clock }) } : WarpState).ln
            j = Function.update (warp_get_valid_lanes_mask c w).2.ln ln_id
              ({ (warp_get_valid_lanes_mask c w).2.ln ln_id with
                 timestamp_p := true, timestamp := c.clock }) j from rfl]
        rw [Function.update_noteq hj]
        exact hf j

lemma lane_is_active_eq (c : WarpCtx) (ln_id : Nat) (w : WarpState) :
    lane_is_active c ln_id w
      = ((warp_get_active_lanes_mask c
            (lane_is_valid c ln_id w).2).1.testBit ln_id,
         (warp_get_active_lanes_mask c (lane_is_valid c ln_id w).2).2) := rfl

lemma lane_is_active_spec (c : WarpCtx) (ln_id : Nat) (w : WarpState)
    (h : maskConsistent c w) :
    (lane_is_active c ln_id w).1 = c.api.active_lanes.testBit ln_id ∧
    maskConsistent c (lane_is_active c ln_id w).2 ∧
    ∀ j, laneCacheFields ((lane_is_active c ln_id w).2.ln j)
      = laneCacheFields (w.ln j) := by
  obtain ⟨hv1, hc1, hf1⟩ := lane_is_valid_spec c ln_id w h
  obtain ⟨hv2, hc2, hf2⟩ := wgalm_spec c (lane_is_valid c ln_id w).2 hc1
  rw [lane_is_active_eq]
  exact ⟨by rw [hv2], hc2, fun j => (hf2 j).trans (hf1 j)⟩

lemma wgdlm_eq (c : WarpCtx) (w : WarpState) :
    warp_get_divergent_lanes_mask c w
      = ((warp_get_valid_lanes_mask c w).1
          &&& uint32_complement (warp_get_active_lanes_mask c
            (warp_get_valid_lanes_mask c w).2).1,
         (warp_get_active_lanes_mask c
           (warp_get_valid_lanes_mask c w).2).2) := rfl

lemma wgdlm_spec (c : WarpCtx) (w : WarpState) (h : maskConsistent c w) :
    (warp_get_divergent_lanes_mask c w).1
      = effValidLanesMask c &&& uint32_complement c.api.active_lanes ∧
    maskConsistent c (warp_get_divergent_lanes_mask c w).2 ∧
    ∀ j, laneCacheFields ((warp_get_divergent_lanes_mask c w).2.ln j)
      = laneCacheFields (w.ln j) := by
  obtain ⟨hv1, hc1, hf1⟩ := wgvlm_spec c w h
  obtain ⟨hv2, hc2, hf2⟩ :=
    wgalm_spec c (warp_get_valid_lanes_mask c w).2 hc1
  rw [wgdlm_eq]
  exact ⟨by rw [hv1, hv2], hc2, fun j => (hf2 j).trans (hf1 j)⟩

lemma lane_is_divergent_spec (c : WarpCtx) (ln_id : Nat) (w : WarpState)
    (h : maskConsistent c w) :
    maskConsistent c (lane_is_divergent c ln_id w).2 ∧
    ∀ j, laneCacheFields ((lane_is_divergent c ln_id w).2.ln j)
      = laneCacheFields (w.ln j) := by
  obtain ⟨hv1, hc1, hf1⟩ := lane_is_valid_spec c ln_id w h
  obtain ⟨hv2, hc2, hf2⟩ :=
    wgdlm_spec c (lane_is_valid c ln_id w).2 hc1
  exact ⟨hc2, fun j => (hf2 j).trans (hf1 j)⟩

lemma lane_set_pc_cached_ln_same (pc ln_id : Nat) (w : WarpState) :
    (lane_set_pc_cached pc ln_id w).ln ln_id
      = { w.ln ln_id with pc_p := true, pc := pc } := by
  simp [lane_set_pc_cached]

lemma lane_set_pc_cached_ln_other (pc ln_id : Nat) (w : WarpState)
    (j : Nat) (hj : j ≠ ln_id) :
    (lane_set_pc_cached pc ln_id w).ln j = w.ln j := by
  simp [lane_set_pc_cached, Function.update_noteq hj]

lemma lane_set_pc_cached_mask (c : WarpCtx) (pc ln_id : Nat)
    (w : WarpState) (h : maskConsistent c w) :
    maskConsistent c (lane_set_pc_cached pc ln_id w) := h

lemma lane_set_virtual_pc_cached_ln_same (vpc ln_id : Nat) (w : WarpState) :
    (lane_set_virtual_pc_cached vpc ln_id w).ln ln_id
      = { w.ln ln_id with virtual_pc_p := true, virtual_pc := vpc } := by
  simp [lane_set_virtual_pc_cached]

lemma lane_set_virtual_pc_cached_ln_other (vpc ln_id : Nat) (w : WarpState)
    (j : Nat) (hj : j ≠ ln_id) :
    (lane_set_virtual_pc_cached vpc ln_id w).ln j = w.ln j := by
  simp [lane_set_virtual_pc_cached, Function.update_noteq hj]

lemma lane_set_virtual_pc_cached_mask (c : WarpCtx) (vpc ln_id : Nat)
    (w : WarpState) (h : maskConsistent c w) :
    maskConsistent c (lane_set_virtual_pc_cached vpc ln_id w) := h

lemma lane_pc_propagate_step_eq (c : WarpCtx) (pc i : Nat) (w : WarpState) :
    lane_pc_propagate_step c pc i w
      = (if (lane_is_valid c i w).1 then
          (if (lane_is_active c i (lane_is_valid c i w).2).1 then
            lane_set_pc_cached pc i
              (lane_is_active c i (lane_is_valid c i w).2).2
          else (lane_is_active c i (lane_is_valid c i w).2).2)
        else (lane_is_valid c i w).2) := rfl

lemma lane_pc_propagate_step_spec (c : WarpCtx) (pc i : Nat)
    (w : WarpState) (h : maskConsistent c w) :
    maskConsistent c (lane_pc_propagate_step c pc i w) ∧
    (∀ j, j ≠ i →
      laneCacheFields ((lane_pc_propagate_step c pc i w).ln j)
        = laneCacheFields (w.ln j)) ∧
    (((effValidLanesMask c).testBit i && c.api.active_lanes.testBit i)
        = true →
      ((lane_pc_propagate_step c pc i w).ln i).pc_p = true ∧
      ((lane_pc_propagate_step c pc i w).ln i).pc = pc ∧
      ((lane_pc_propagate_step c pc i w).ln i).virtual_pc_p
        = (w.ln i).virtual_pc_p ∧
      ((lane_pc_propagate_step c pc i w).ln i).virtual_pc
        = (w.ln i).virtual_pc) ∧
    (((effValidLanesMask c).testBit i && c.api.active_lanes.testBit i)
        = false →
      laneCacheFields ((lane_pc_propagate_step c pc i w).ln i)
        = laneCacheFields (w.ln i)) := by
  obtain ⟨hv1, hc1, hf1⟩ := lane_is_valid_spec c i w h
  rw [lane_pc_propagate_step_eq]
  rcases Bool.eq_false_or_eq_true ((effValidLanesMask c).testBit i)
    with hvb | hvb
  · -- the lane is valid; lane_is_active is evaluated
    rw [hv1, hvb, if_pos rfl]
    obtain ⟨ha1, hc2, hf2⟩ :=
      lane_is_active_spec c i (lane_is_valid c i w).2 hc1
    rcases Bool.eq_false_or_eq_true (c.api.active_lanes.testBit i)
      with hab | hab
    · -- valid and active: the pc is cached into lane i
      rw [ha1, hab, if_pos rfl]
      have hothers : ∀ j, j ≠ i →
          laneCacheFields ((lane_set_pc_cached pc i
            (lane_is_active c i (lane_is_valid c i w).2).2).ln j)
            = laneCacheFields (w.ln j) := by
        intro j hj
        rw [lane_set_pc_cached_ln_other pc i _ j hj]
        exact (hf2 j).trans (hf1 j)
      have hsame :
          (lane_set_pc_cached pc i
            (lane_is_active c i (lane_is_valid c i w).2).2).ln i
          = { (lane_is_active c i (lane_is_valid c i w).2).2.ln i with
              pc_p := true, pc := pc } := lane_set_pc_cached_ln_same pc i _
      have hvirt := (hf2 i).trans (hf1 i)
      have hvirt_p :
          ((lane_is_active c i (lane_is_valid c i w).2).2.ln i).virtual_pc_p
            = (w.ln i).virtual_pc_p := by
        have := congrArg (fun t => t.2.2.1) hvirt
        simpa [laneCacheFields] using this
      have hvirt_v :
          ((lane_is_active c i (lane_is_valid c i w).2).2.ln i).virtual_pc
            = (w.ln i).virtual_pc := by
        have := congrArg (fun t => t.2.2.2) hvirt
        simpa [laneCacheFields] using this
      refine ⟨lane_set_pc_cached_mask c pc i _ hc2, hothers, ?_, ?_⟩
      · intro _
        rw [hsame]
        exact ⟨rfl, rfl, hvirt_p, hvirt_v⟩
      · intro hcon
        exact absurd hcon (by decide)
    · -- valid but inactive: no write
      rw [ha1, hab]
      simp only [Bool.false_eq_true, if_false]
      refine ⟨hc2, fun j _ => (hf2 j).trans (hf1 j), ?_,
        fun _ => (hf2 i).trans (hf1 i)⟩
      intro hcon
      exact absurd hcon (by decide)
  · -- invalid lane: only lane_is_valid's own effects
    rw [hv1, hvb]
    simp only [Bool.false_eq_true, if_false]
    refine ⟨hc1, fun j _ => hf1 j, ?_, fun _ => hf1 i⟩
    intro hcon
    simp at hcon

lemma laneCacheFields_eq_iff {l l' : LaneState} :
    laneCacheFields l = laneCacheFields l' ↔
      (l.pc_p = l'.pc_p ∧ l.pc = l'.pc ∧ l.virtual_pc_p = l'.virtual_pc_p ∧
        l.virtual_pc = l'.virtual_pc) := by
  simp [laneCacheFields, Prod.ext_iff]

/-- The propagation loop of `lane_get_pc`, cut off after the first `n`
lanes (a proof device for reasoning about the fold). -/
def lane_pc_propagate_upto (c : WarpCtx) (pc : Nat) :
    Nat → WarpState → WarpState
  | 0, w => w
  | n + 1, w => lane_pc_propagate_step c pc n (lane_pc_propagate_upto c pc n w)

lemma lane_pc_propagate_eq_upto (c : WarpCtx) (pc : Nat) (w : WarpState) :
    lane_pc_propagate c pc w
      = lane_pc_propagate_upto c pc c.num_lanes w := by
  unfold lane_pc_propagate
  suffices h : ∀ (n : Nat) (w : WarpState),
      (List.range n).foldl (fun acc i => lane_pc_propagate_step c pc i acc) w
        = lane_pc_propagate_upto c pc n w from h c.num_lanes w
  intro n
  induction n with
  | zero => intro w; simp [lane_pc_propagate_upto]
  | succ n ih =>
      intro w
      rw [List.range_succ, List.foldl_append]
      simp only [List.foldl_cons, List.foldl_nil]
      rw [ih w]
      rfl

lemma lane_pc_propagate_upto_spec (c : WarpCtx) (pc : Nat) (n : Nat) :
    ∀ (w : WarpState), maskConsistent c w →
      maskConsistent c (lane_pc_propagate_upto c pc n w) ∧
      (∀ j, ¬ (j < n ∧ ((effValidLanesMask c).testBit j
            && c.api.active_lanes.testBit j) = true) →
        laneCacheFields ((lane_pc_propagate_upto c pc n w).ln j)
          = laneCacheFields (w.ln j)) ∧
      (∀ j, j < n →
        ((effValidLanesMask c).testBit j
            && c.api.active_lanes.testBit j) = true →
        ((lane_pc_propagate_upto c pc n w).ln j).pc_p = true ∧
        ((lane_pc_propagate_upto c pc n w).ln j).pc = pc ∧
        ((lane_pc_propagate_upto c pc n w).ln j).virtual_pc_p
          = (w.ln j).virtual_pc_p ∧
        ((lane_pc_propagate_upto c pc n w).ln j).virtual_pc
          = (w.ln j).virtual_pc) := by
  induction n with
  | zero =>
      intro w h
      exact ⟨h, fun j _ => rfl, fun j hj _ => absurd hj (by omega)⟩
  | succ n ih =>
      intro w h
      obtain ⟨ihc, ihkeep, ihset⟩ := ih w h
      obtain ⟨sc, skeep, sset, skeepi⟩ :=
        lane_pc_propagate_step_spec c pc n (lane_pc_propagate_upto c pc n w)
          ihc
      refine ⟨sc, ?_, ?_⟩
      · intro j hj
        rcases eq_or_ne j n with hjn | hjn
        · subst hjn
          have hb : ((effValidLanesMask c).testBit j
              && c.api.active_lanes.testBit j) = false := by
            rcases Bool.eq_false_or_eq_true ((effValidLanesMask c).testBit j
                && c.api.active_lanes.testBit j) with hb | hb
            · exact absurd ⟨by omega, hb⟩ hj
            · exact hb
          exact (skeepi hb).trans (ihkeep j (by omega))
        · have hkeep := skeep j hjn
          have hjn' : ¬ (j < n ∧ ((effValidLanesMask c).testBit j
              && c.api.active_lanes.testBit j) = true) := by
            intro ⟨h1, h2⟩
            exact hj ⟨by omega, h2⟩
          exact hkeep.trans (ihkeep j hjn')
      · intro j hj hb
        rcases eq_or_ne j n with hjn | hjn
        · subst hjn
          obtain ⟨s1, s2, s3, s4⟩ := sset hb
          have hpres := ihkeep j (by omega)
          rw [laneCacheFields_eq_iff] at hpres
          exact ⟨s1, s2, s3.trans hpres.2.2.1, s4.trans hpres.2.2.2⟩
        · have hkeep := skeep j hjn
          rw [laneCacheFields_eq_iff] at hkeep
          obtain ⟨i1, i2, i3, i4⟩ := ihset j (by omega) hb
          exact ⟨hkeep.1.trans i1, hkeep.2.1.trans i2,
            hkeep.2.2.1.trans i3, hkeep.2.2.2.trans i4⟩

lemma lane_set_pc_cached_ln (pc ln_id : Nat) (w : WarpState) (k : Nat) :
    (lane_set_pc_cached pc ln_id w).ln k
      = if k = ln_id then { w.ln k with pc_p := true, pc := pc }
        else w.ln k := by
  rcases eq_or_ne k ln_id with hk | hk
  · subst hk
    rw [if_pos rfl]
    exact lane_set_pc_cached_ln_same pc k w
  · rw [if_neg hk]
    exact lane_set_pc_cached_ln_other pc ln_id w k hk

lemma lane_set_virtual_pc_cached_ln (vpc ln_id : Nat) (w : WarpState)
    (k : Nat) :
    (lane_set_virtual_pc_cached vpc ln_id w).ln k
      = if k = ln_id
        then { w.ln k with virtual_pc_p := true, virtual_pc := vpc }
        else w.ln k := by
  rcases eq_or_ne k ln_id with hk | hk
  · subst hk
    rw [if_pos rfl]
    exact lane_set_virtual_pc_cached_ln_same vpc k w
  · rw [if_neg hk]
    exact lane_set_virtual_pc_cached_ln_other vpc ln_id w k hk

lemma lane_get_pc_cached (c : WarpCtx) (ln_id : Nat) (w : WarpState)
    (hp : ((lane_is_valid c ln_id w).2.ln ln_id).pc_p = true) :
    lane_get_pc c ln_id w
      = ((((lane_is_valid c ln_id w).2.ln ln_id).pc, 0),
         (lane_is_valid c ln_id w).2) := by
  simp [lane_get_pc, hp]

lemma lane_get_pc_fetch (c : WarpCtx) (ln_id : Nat) (w : WarpState)
    (hp : ((lane_is_valid c ln_id w).2.ln ln_id).pc_p = false) :
    lane_get_pc c ln_id w
      = (if (lane_is_active c ln_id (lane_set_pc_cached (c.api.pc ln_id)
            ln_id (lane_is_valid c ln_id w).2)).1 then
          ((c.api.pc ln_id, 1),
            lane_pc_propagate c (c.api.pc ln_id)
              (lane_is_active c ln_id (lane_set_pc_cached (c.api.pc ln_id)
                ln_id (lane_is_valid c ln_id w).2)).2)
        else
          ((c.api.pc ln_id, 1),
            (lane_is_active c ln_id (lane_set_pc_cached (c.api.pc ln_id)
              ln_id (lane_is_valid c ln_id w).2)).2)) := by
  simp only [lane_get_pc, hp, Bool.false_eq_true, if_false]

lemma lane_get_virtual_pc_cached (c : WarpCtx) (ln_id : Nat)
    (w : WarpState)
    (hp : ((lane_is_valid c ln_id w).2.ln ln_id).virtual_pc_p = true) :
    lane_get_virtual_pc c ln_id w
      = ((((lane_is_valid c ln_id w).2.ln ln_id).virtual_pc, 0),
         (lane_is_valid c ln_id w).2) := by
  simp [lane_get_virtual_pc, hp]

lemma lane_get_virtual_pc_fetch (c : WarpCtx) (ln_id : Nat)
    (w : WarpState)
    (hp : ((lane_is_valid c ln_id w).2.ln ln_id).virtual_pc_p = false) :
    lane_get_virtual_pc c ln_id w
      = (if (lane_is_active c ln_id
            (lane_set_virtual_pc_cached (c.api.virtual_pc ln_id)
              ln_id (lane_is_valid c ln_id w).2)).1 then
          ((c.api.virtual_pc ln_id, 1),
            lane_virtual_pc_propagate c (c.api.virtual_pc ln_id)
              (lane_is_active c ln_id
                (lane_set_virtual_pc_cached (c.api.virtual_pc ln_id)
                  ln_id (lane_is_valid c ln_id w).2)).2)
        else
          ((c.api.virtual_pc ln_id, 1),
            (lane_is_active c ln_id
              (lane_set_virtual_pc_cached (c.api.virtual_pc ln_id)
                ln_id (lane_is_valid c ln_id w).2)).2)) := by
  simp only [lane_get_virtual_pc, hp, Bool.false_eq_true, if_false]

lemma pcCoherent_of_fields {c : WarpCtx} {w w' : WarpState}
    (hf : ∀ j, laneCacheFields (w'.ln j) = laneCacheFields (w.ln j))
    (h : pcCoherent c w) : pcCoherent c w' := by
  intro i j hi hj hvi hai hvj haj hp
  have hfi := laneCacheFields_eq_iff.mp (hf i)
  have hfj := laneCacheFields_eq_iff.mp (hf j)
  rw [hfi.1] at hp
  obtain ⟨q1, q2⟩ := h i j hi hj hvi hai hvj haj hp
  exact ⟨by rw [hfj.1, q1], by rw [hfj.2.1, q2, hfi.2.1]⟩

lemma vpcCoherent_of_fields {c : WarpCtx} {w w' : WarpState}
    (hf : ∀ j, laneCacheFields (w'.ln j) = laneCacheFields (w.ln j))
    (h : vpcCoherent c w) : vpcCoherent c w' := by
  intro i j hi hj hvi hai hvj haj hp
  have hfi := laneCacheFields_eq_iff.mp (hf i)
  have hfj := laneCacheFields_eq_iff.mp (hf j)
  rw [hfi.2.2.1] at hp
  obtain ⟨q1, q2⟩ := h i j hi hj hvi hai hvj haj hp
  exact ⟨by rw [hfj.2.2.1, q1], by rw [hfj.2.2.2, q2, hfi.2.2.2]⟩

lemma warpInv_of_fields {c : WarpCtx} {w w' : WarpState}
    (hmc : maskConsistent c w')
    (hf : ∀ j, laneCacheFields (w'.ln j) = laneCacheFields (w.ln j))
    (h : warpInv c w) : warpInv c w' :=
  ⟨hmc, pcCoherent_of_fields hf h.2.1, vpcCoherent_of_fields hf h.2.2⟩

lemma lane_get_pc_fetch_inv (c : WarpCtx) (ln_id : Nat)
    (w wbase : WarpState)
    (hf1 : ∀ j, laneCacheFields (wbase.ln j) = laneCacheFields (w.ln j))
    (hc1 : maskConsistent c wbase) (h : warpInv c w) :
    warpInv c
      ((if (lane_is_active c ln_id
          (lane_set_pc_cached (c.api.pc ln_id) ln_id wbase)).1 then
        ((c.api.pc ln_id, 1),
          lane_pc_propagate c (c.api.pc ln_id)
            (lane_is_active c ln_id
              (lane_set_pc_cached (c.api.pc ln_id) ln_id wbase)).2)
      else
        ((c.api.pc ln_id, 1),
          (lane_is_active c ln_id
            (lane_set_pc_cached (c.api.pc ln_id) ln_id wbase)).2)) :
        (Nat × Nat) × WarpState).2 := by
  obtain ⟨hmc, hpc, hvpc⟩ := h
  have hc2 : maskConsistent c
      (lane_set_pc_cached (c.api.pc ln_id) ln_id wbase) := hc1
  obtain ⟨ha1, hc3, hf3⟩ := lane_is_active_spec c ln_id
    (lane_set_pc_cached (c.api.pc ln_id) ln_id wbase) hc2
  -- virtual fields survive the whole chain
  have hvirt3 : ∀ k,
      ((lane_is_active c ln_id
        (lane_set_pc_cached (c.api.pc ln_id) ln_id wbase)).2.ln
          k).virtual_pc_p = (w.ln k).virtual_pc_p ∧
      ((lane_is_active c ln_id
        (lane_set_pc_cached (c.api.pc ln_id) ln_id wbase)).2.ln
          k).virtual_pc = (w.ln k).virtual_pc := by
    intro k
    have h3 := laneCacheFields_eq_iff.mp (hf3 k)
    have h1 := laneCacheFields_eq_iff.mp (hf1 k)
    have h2v : ((lane_set_pc_cached (c.api.pc ln_id) ln_id
          wbase).ln k).virtual_pc_p = (wbase.ln k).virtual_pc_p ∧
        ((lane_set_pc_cached (c.api.pc ln_id) ln_id
          wbase).ln k).virtual_pc = (wbase.ln k).virtual_pc := by
      rw [lane_set_pc_cached_ln]
      split_ifs with hk
      · exact ⟨rfl, rfl⟩
      · exact ⟨rfl, rfl⟩
    exact ⟨h3.2.2.1.trans (h2v.1.trans h1.2.2.1),
      h3.2.2.2.trans (h2v.2.trans h1.2.2.2)⟩
  -- pc fields of lanes other than ln_id survive the chain
  have hpcne : ∀ k, k ≠ ln_id →
      ((lane_is_active c ln_id
        (lane_set_pc_cached (c.api.pc ln_id) ln_id wbase)).2.ln k).pc_p
          = (w.ln k).pc_p ∧
      ((lane_is_active c ln_id
        (lane_set_pc_cached (c.api.pc ln_id) ln_id wbase)).2.ln k).pc
          = (w.ln k).pc := by
    intro k hk
    have h3 := laneCacheFields_eq_iff.mp (hf3 k)
    have h1 := laneCacheFields_eq_iff.mp (hf1 k)
    have h2 : (lane_set_pc_cached (c.api.pc ln_id) ln_id wbase).ln k
        = wbase.ln k := lane_set_pc_cached_ln_other _ _ _ k hk
    constructor
    · rw [h3.1, h2, h1.1]
    · rw [h3.2.1, h2, h1.2.1]
  split_ifs with hact
  · -- the lane is active: the pc is propagated to all valid active lanes
    show warpInv c (lane_pc_propagate c (c.api.pc ln_id)
      (lane_is_active c ln_id
        (lane_set_pc_cached (c.api.pc ln_id) ln_id wbase)).2)
    rw [lane_pc_propagate_eq_upto]
    obtain ⟨pc1, pkeep, pset⟩ :=
      lane_pc_propagate_upto_spec c (c.api.pc ln_id) c.num_lanes
        (lane_is_active c ln_id
          (lane_set_pc_cached (c.api.pc ln_id) ln_id wbase)).2 hc3
    have hvirt4 : ∀ k,
        ((lane_pc_propagate_upto c (c.api.pc ln_id) c.num_lanes
          (lane_is_active c ln_id
            (lane_set_pc_cached (c.api.pc ln_id) ln_id wbase)).2).ln
              k).virtual_pc_p = (w.ln k).virtual_pc_p ∧
        ((lane_pc_propagate_upto c (c.api.pc ln_id) c.num_lanes
          (lane_is_active c ln_id
            (lane_set_pc_cached (c.api.pc ln_id) ln_id wbase)).2).ln
              k).virtual_pc = (w.ln k).virtual_pc := by
      intro k
      by_cases hkb : k < c.num_lanes ∧ ((effValidLanesMask c).testBit k
          && c.api.active_lanes.testBit k) = true
      · obtain ⟨_, _, v3, v4⟩ := pset k hkb.1 hkb.2
        exact ⟨v3.trans (hvirt3 k).1, v4.trans (hvirt3 k).2⟩
      · have hk := laneCacheFields_eq_iff.mp (pkeep k hkb)
        exact ⟨hk.2.2.1.trans (hvirt3 k).1, hk.2.2.2.trans (hvirt3 k).2⟩
    refine ⟨pc1, ?_, ?_⟩
    · intro i j hi hj hvi hai hvj haj hpi
      have hbi : ((effValidLanesMask c).testBit i
          && c.api.active_lanes.testBit i) = true := by
        rw [hvi, hai]; rfl
      have hbj : ((effValidLanesMask c).testBit j
          && c.api.active_lanes.testBit j) = true := by
        rw [hvj, haj]; rfl
      obtain ⟨s1, s2, -, -⟩ := pset i hi hbi
      obtain ⟨t1, t2, -, -⟩ := pset j hj hbj
      exact ⟨t1, by rw [t2, s2]⟩
    · intro i j hi hj hvi hai hvj haj hpi
      rw [(hvirt4 i).1] at hpi
      obtain ⟨q1, q2⟩ := hvpc i j hi hj hvi hai hvj haj hpi
      refine ⟨by rw [(hvirt4 j).1, q1], ?_⟩
      rw [(hvirt4 j).2, q2, (hvirt4 i).2]
  · -- the lane is divergent: only its own slot was written
    show warpInv c (lane_is_active c ln_id
      (lane_set_pc_cached (c.api.pc ln_id) ln_id wbase)).2
    have hnact : c.api.active_lanes.testBit ln_id = false := by
      have hact' : (lane_is_active c ln_id
          (lane_set_pc_cached (c.api.pc ln_id) ln_id wbase)).1 = false := by
        simpa using hact
      rw [ha1] at hact'
      exact hact'
    refine ⟨hc3, ?_, ?_⟩
    · intro i j hi hj hvi hai hvj haj hpi
      have hine : i ≠ ln_id := by
        intro he
        rw [he, hnact] at hai
        exact absurd hai (by decide)
      have hjne : j ≠ ln_id := by
        intro he
        rw [he, hnact] at haj
        exact absurd haj (by decide)
      have hi' := hpcne i hine
      have hj' := hpcne j hjne
      rw [hi'.1] at hpi
      obtain ⟨q1, q2⟩ := hpc i j hi hj hvi hai hvj haj hpi
      refine ⟨by rw [hj'.1, q1], ?_⟩
      rw [hj'.2, q2, hi'.2]
    · intro i j hi hj hvi hai hvj haj hpi
      rw [(hvirt3 i).1] at hpi
      obtain ⟨q1, q2⟩ := hvpc i j hi hj hvi hai hvj haj hpi
      refine ⟨by rw [(hvirt3 j).1, q1], ?_⟩
      rw [(hvirt3 j).2, q2, (hvirt3 i).2]

lemma lane_get_pc_inv (c : WarpCtx) (ln_id : Nat) (w : WarpState)
    (h : warpInv c w) : warpInv c (lane_get_pc c ln_id w).2 := by
  obtain ⟨hv1, hc1, hf1⟩ := lane_is_valid_spec c ln_id w h.1
  rcases Bool.eq_false_or_eq_true
    ((lane_is_valid c ln_id w).2.ln ln_id).pc_p with hp | hp
  · rw [lane_get_pc_cached c ln_id w hp]
    exact warpInv_of_fields hc1 hf1 h
  · rw [lane_get_pc_fetch c ln_id w hp]
    exact lane_get_pc_fetch_inv c ln_id w (lane_is_valid c ln_id w).2
      hf1 hc1 h

lemma lane_virtual_pc_propagate_step_eq (c : WarpCtx) (vpc i : Nat)
    (w : WarpState) :
    lane_virtual_pc_propagate_step c vpc i w
      = (if (lane_is_valid c i w).1 then
          (if (lane_is_active c i (lane_is_valid c i w).2).1 then
            lane_set_virtual_pc_cached vpc i
              (lane_is_active c i (lane_is_valid c i w).2).2
          else (lane_is_active c i (lane_is_valid c i w).2).2)
        else (lane_is_valid c i w).2) := rfl

lemma lane_virtual_pc_propagate_step_spec (c : WarpCtx) (vpc i : Nat)
    (w : WarpState) (h : maskConsistent c w) :
    maskConsistent c (lane_virtual_pc_propagate_step c vpc i w) ∧
    (∀ j, j ≠ i →
      laneCacheFields ((lane_virtual_pc_propagate_step c vpc i w).ln j)
        = laneCacheFields (w.ln j)) ∧
    (((effValidLanesMask c).testBit i && c.api.active_lanes.testBit i)
        = true →
      ((lane_virtual_pc_propagate_step c vpc i w).ln i).virtual_pc_p
        = true ∧
      ((lane_virtual_pc_propagate_step c vpc i w).ln i).virtual_pc = vpc ∧
      ((lane_virtual_pc_propagate_step c vpc i w).ln i).pc_p
        = (w.ln i).pc_p ∧
      ((lane_virtual_pc_propagate_step c vpc i w).ln i).pc = (w.ln i).pc) ∧
    (((effValidLanesMask c).testBit i && c.api.active_lanes.testBit i)
        = false →
      laneCacheFields ((lane_virtual_pc_propagate_step c vpc i w).ln i)
        = laneCacheFields (w.ln i)) := by
  obtain ⟨hv1, hc1, hf1⟩ := lane_is_valid_spec c i w h
  rw [lane_virtual_pc_propagate_step_eq]
  rcases Bool.eq_false_or_eq_true ((effValidLanesMask c).testBit i)
    with hvb | hvb
  · rw [hv1, hvb, if_pos rfl]
    obtain ⟨ha1, hc2, hf2⟩ :=
      lane_is_active_spec c i (lane_is_valid c i w).2 hc1
    rcases Bool.eq_false_or_eq_true (c.api.active_lanes.testBit i)
      with hab | hab
    · rw [ha1, hab, if_pos rfl]
      have hothers : ∀ j, j ≠ i →
          laneCacheFields ((lane_set_virtual_pc_cached vpc i
            (lane_is_active c i (lane_is_valid c i w).2).2).ln j)
            = laneCacheFields (w.ln j) := by
        intro j hj
        rw [lane_set_virtual_pc_cached_ln_other vpc i _ j hj]
        exact (hf2 j).trans (hf1 j)
      have hsame :
          (lane_set_virtual_pc_cached vpc i
            (lane_is_active c i (lane_is_valid c i w).2).2).ln i
          = { (lane_is_active c i (lane_is_valid c i w).2).2.ln i with
              virtual_pc_p := true, virtual_pc := vpc } :=
        lane_set_virtual_pc_cached_ln_same vpc i _
      have hpcf := (hf2 i).trans (hf1 i)
      have hpc_p :
          ((lane_is_active c i (lane_is_valid c i w).2).2.ln i).pc_p
            = (w.ln i).pc_p := by
        have := congrArg (fun t => t.1) hpcf
        simpa [laneCacheFields] using this
      have hpc_v :
          ((lane_is_active c i (lane_is_valid c i w).2).2.ln i).pc
            = (w.ln i).pc := by
        have := congrArg (fun t => t.2.1) hpcf
        simpa [laneCacheFields] using this
      refine ⟨lane_set_virtual_pc_cached_mask c vpc i _ hc2, hothers,
        ?_, ?_⟩
      · intro _
        rw [hsame]
        exact ⟨rfl, rfl, hpc_p, hpc_v⟩
      · intro hcon
        exact absurd hcon (by decide)
    · rw [ha1, hab]
      simp only [Bool.false_eq_true, if_false]
      refine ⟨hc2, fun j _ => (hf2 j).trans (hf1 j), ?_,
        fun _ => (hf2 i).trans (hf1 i)⟩
      intro hcon
      exact absurd hcon (by decide)
  · rw [hv1, hvb]
    simp only [Bool.false_eq_true, if_false]
    refine ⟨hc1, fun j _ => hf1 j, ?_, fun _ => hf1 i⟩
    intro hcon
    simp at hcon

/-- The propagation loop of `lane_get_virtual_pc`, cut off after the
first `n` lanes (a proof device). -/
def lane_virtual_pc_propagate_upto (c : WarpCtx) (vpc : Nat) :
    Nat → WarpState → WarpState
  | 0, w => w
  | n + 1, w =>
      lane_virtual_pc_propagate_step c vpc n
        (lane_virtual_pc_propagate_upto c vpc n w)

lemma lane_virtual_pc_propagate_eq_upto (c : WarpCtx) (vpc : Nat)
    (w : WarpState) :
    lane_virtual_pc_propagate c vpc w
      = lane_virtual_pc_propagate_upto c vpc c.num_lanes w := by
  unfold lane_virtual_pc_propagate
  suffices h : ∀ (n : Nat) (w : WarpState),
      (List.range n).foldl
        (fun acc i => lane_virtual_pc_propagate_step c vpc i acc) w
        = lane_virtual_pc_propagate_upto c vpc n w from h c.num_lanes w
  intro n
  induction n with
  | zero => intro w; simp [lane_virtual_pc_propagate_upto]
  | succ n ih =>
      intro w
      rw [List.range_succ, List.foldl_append]
      simp only [List.foldl_cons, List.foldl_nil]
      rw [ih w]
      rfl

lemma lane_virtual_pc_propagate_upto_spec (c : WarpCtx) (vpc : Nat)
    (n : Nat) :
    ∀ (w : WarpState), maskConsistent c w →
      maskConsistent c (lane_virtual_pc_propagate_upto c vpc n w) ∧
      (∀ j, ¬ (j < n ∧ ((effValidLanesMask c).testBit j
            && c.api.active_lanes.testBit j) = true) →
        laneCacheFields ((lane_virtual_pc_propagate_upto c vpc n w).ln j)
          = laneCacheFields (w.ln j)) ∧
      (∀ j, j < n →
        ((effValidLanesMask c).testBit j
            && c.api.active_lanes.testBit j) = true →
        ((lane_virtual_pc_propagate_upto c vpc n w).ln j).virtual_pc_p
          = true ∧
        ((lane_virtual_pc_propagate_upto c vpc n w).ln j).virtual_pc
          = vpc ∧
        ((lane_virtual_pc_propagate_upto c vpc n w).ln j).pc_p
          = (w.ln j).pc_p ∧
        ((lane_virtual_pc_propagate_upto c vpc n w).ln j).pc
          = (w.ln j).pc) := by
  induction n with
  | zero =>
      intro w h
      exact ⟨h, fun j _ => rfl, fun j hj _ => absurd hj (by omega)⟩
  | succ n ih =>
      intro w h
      obtain ⟨ihc, ihkeep, ihset⟩ := ih w h
      obtain ⟨sc, skeep, sset, skeepi⟩ :=
        lane_virtual_pc_propagate_step_spec c vpc n
          (lane_virtual_pc_propagate_upto c vpc n w) ihc
      refine ⟨sc, ?_, ?_⟩
      · intro j hj
        rcases eq_or_ne j n with hjn | hjn
        · subst hjn
          have hb : ((effValidLanesMask c).testBit j
              && c.api.active_lanes.testBit j) = false := by
            rcases Bool.eq_false_or_eq_true ((effValidLanesMask c).testBit j
                && c.api.active_lanes.testBit j) with hb | hb
            · exact absurd ⟨by omega, hb⟩ hj
            · exact hb
          exact (skeepi hb).trans (ihkeep j (by omega))
        · have hkeep := skeep j hjn
          have hjn' : ¬ (j < n ∧ ((effValidLanesMask c).testBit j
              && c.api.active_lanes.testBit j) = true) := by
            intro ⟨h1, h2⟩
            exact hj ⟨by omega, h2⟩
          exact hkeep.trans (ihkeep j hjn')
      · intro j hj hb
        rcases eq_or_ne j n with hjn | hjn
        · subst hjn
          obtain ⟨s1, s2, s3, s4⟩ := sset hb
          have hpres := ihkeep j (by omega)
          rw [laneCacheFields_eq_iff] at hpres
          exact ⟨s1, s2, s3.trans hpres.1, s4.trans hpres.2.1⟩
        · have hkeep := skeep j hjn
          rw [laneCacheFields_eq_iff] at hkeep
          obtain ⟨i1, i2, i3, i4⟩ := ihset j (by omega) hb
          exact ⟨hkeep.2.2.1.trans i1, hkeep.2.2.2.trans i2,
            hkeep.1.trans i3, hkeep.2.1.trans i4⟩

lemma lane_get_virtual_pc_fetch_inv (c : WarpCtx) (ln_id : Nat)
    (w wbase : WarpState)
    (hf1 : ∀ j, laneCacheFields (wbase.ln j) = laneCacheFields (w.ln j))
    (hc1 : maskConsistent c wbase) (h : warpInv c w) :
    warpInv c
      ((if (lane_is_active c ln_id
          (lane_set_virtual_pc_cached (c.api.virtual_pc ln_id) ln_id
            wbase)).1 then
        ((c.api.virtual_pc ln_id, 1),
          lane_virtual_pc_propagate c (c.api.virtual_pc ln_id)
            (lane_is_active c ln_id
              (lane_set_virtual_pc_cached (c.api.virtual_pc ln_id) ln_id
                wbase)).2)
      else
        ((c.api.virtual_pc ln_id, 1),
          (lane_is_active c ln_id
            (lane_set_virtual_pc_cached (c.api.virtual_pc ln_id) ln_id
              wbase)).2)) :
        (Nat × Nat) × WarpState).2 := by
  obtain ⟨hmc, hpc, hvpc⟩ := h
  have hc2 : maskConsistent c
      (lane_set_virtual_pc_cached (c.api.virtual_pc ln_id) ln_id wbase) :=
    hc1
  obtain ⟨ha1, hc3, hf3⟩ := lane_is_active_spec c ln_id
    (lane_set_virtual_pc_cached (c.api.virtual_pc ln_id) ln_id wbase) hc2
  -- pc fields survive the whole chain
  have hpcf3 : ∀ k,
      ((lane_is_active c ln_id
        (lane_set_virtual_pc_cached (c.api.virtual_pc ln_id) ln_id
          wbase)).2.ln k).pc_p = (w.ln k).pc_p ∧
      ((lane_is_active c ln_id
        (lane_set_virtual_pc_cached (c.api.virtual_pc ln_id) ln_id
          wbase)).2.ln k).pc = (w.ln k).pc := by
    intro k
    have h3 := laneCacheFields_eq_iff.mp (hf3 k)
    have h1 := laneCacheFields_eq_iff.mp (hf1 k)
    have h2v : ((lane_set_virtual_pc_cached (c.api.virtual_pc ln_id) ln_id
          wbase).ln k).pc_p = (wbase.ln k).pc_p ∧
        ((lane_set_virtual_pc_cached (c.api.virtual_pc ln_id) ln_id
          wbase).ln k).pc = (wbase.ln k).pc := by
      rw [lane_set_virtual_pc_cached_ln]
      split_ifs with hk
      · exact ⟨rfl, rfl⟩
      · exact ⟨rfl, rfl⟩
    exact ⟨h3.1.trans (h2v.1.trans h1.1), h3.2.1.trans (h2v.2.trans h1.2.1)⟩
  -- virtual fields of lanes other than ln_id survive the chain
  have hvne : ∀ k, k ≠ ln_id →
      ((lane_is_active c ln_id
        (lane_set_virtual_pc_cached (c.api.virtual_pc ln_id) ln_id
          wbase)).2.ln k).virtual_pc_p = (w.ln k).virtual_pc_p ∧
      ((lane_is_active c ln_id
        (lane_set_virtual_pc_cached (c.api.virtual_pc ln_id) ln_id
          wbase)).2.ln k).virtual_pc = (w.ln k).virtual_pc := by
    intro k hk
    have h3 := laneCacheFields_eq_iff.mp (hf3 k)
    have h1 := laneCacheFields_eq_iff.mp (hf1 k)
    have h2 : (lane_set_virtual_pc_cached (c.api.virtual_pc ln_id) ln_id
        wbase).ln k = wbase.ln k :=
      lane_set_virtual_pc_cached_ln_other _ _ _ k hk
    constructor
    · rw [h3.2.2.1, h2, h1.2.2.1]
    · rw [h3.2.2.2, h2, h1.2.2.2]
  split_ifs with hact
  · show warpInv c (lane_virtual_pc_propagate c (c.api.virtual_pc ln_id)
      (lane_is_active c ln_id
        (lane_set_virtual_pc_cached (c.api.virtual_pc ln_id) ln_id
          wbase)).2)
    rw [lane_virtual_pc_propagate_eq_upto]
    obtain ⟨pc1, pkeep, pset⟩ :=
      lane_virtual_pc_propagate_upto_spec c (c.api.virtual_pc ln_id)
        c.num_lanes
        (lane_is_active c ln_id
          (lane_set_virtual_pc_cached (c.api.virtual_pc ln_id) ln_id
            wbase)).2 hc3
    have hpcf4 : ∀ k,
        ((lane_virtual_pc_propagate_upto c (c.api.virtual_pc ln_id)
          c.num_lanes
          (lane_is_active c ln_id
            (lane_set_virtual_pc_cached (c.api.virtual_pc ln_id) ln_id
              wbase)).2).ln k).pc_p = (w.ln k).pc_p ∧
        ((lane_virtual_pc_propagate_upto c (c.api.virtual_pc ln_id)
          c.num_lanes
          (lane_is_active c ln_id
            (lane_set_virtual_pc_cached (c.api.virtual_pc ln_id) ln_id
              wbase)).2).ln k).pc = (w.ln k).pc := by
      intro k
      by_cases hkb : k < c.num_lanes ∧ ((effValidLanesMask c).testBit k
          && c.api.active_lanes.testBit k) = true
      · obtain ⟨_, _, v3, v4⟩ := pset k hkb.1 hkb.2
        exact ⟨v3.trans (hpcf3 k).1, v4.trans (hpcf3 k).2⟩
      · have hk := laneCacheFields_eq_iff.mp (pkeep k hkb)
        exact ⟨hk.1.trans (hpcf3 k).1, hk.2.1.trans (hpcf3 k).2⟩
    refine ⟨pc1, ?_, ?_⟩
    · intro i j hi hj hvi hai hvj haj hpi
      rw [(hpcf4 i).1] at hpi
      obtain ⟨q1, q2⟩ := hpc i j hi hj hvi hai hvj haj hpi
      refine ⟨by rw [(hpcf4 j).1, q1], ?_⟩
      rw [(hpcf4 j).2, q2, (hpcf4 i).2]
    · intro i j hi hj hvi hai hvj haj hpi
      have hbi : ((effValidLanesMask c).testBit i
          && c.api.active_lanes.testBit i) = true := by
        rw [hvi, hai]; rfl
      have hbj : ((effValidLanesMask c).testBit j
          && c.api.active_lanes.testBit j) = true := by
        rw [hvj, haj]; rfl
      obtain ⟨s1, s2, -, -⟩ := pset i hi hbi
      obtain ⟨t1, t2, -, -⟩ := pset j hj hbj
      exact ⟨t1, by rw [t2, s2]⟩
  · show warpInv c (lane_is_active c ln_id
      (lane_set_virtual_pc_cached (c.api.virtual_pc ln_id) ln_id wbase)).2
    have hnact : c.api.active_lanes.testBit ln_id = false := by
      have hact' : (lane_is_active c ln_id
          (lane_set_virtual_pc_cached (c.api.virtual_pc ln_id) ln_id
            wbase)).1 = false := by
        simpa using hact
      rw [ha1] at hact'
      exact hact'
    refine ⟨hc3, ?_, ?_⟩
    · intro i j hi hj hvi hai hvj haj hpi
      rw [(hpcf3 i).1] at hpi
      obtain ⟨q1, q2⟩ := hpc i j hi hj hvi hai hvj haj hpi
      refine ⟨by rw [(hpcf3 j).1, q1], ?_⟩
      rw [(hpcf3 j).2, q2, (hpcf3 i).2]
    · intro i j hi hj hvi hai hvj haj hpi
      have hine : i ≠ ln_id := by
        intro he
        rw [he, hnact] at hai
        exact absurd hai (by decide)
      have hjne : j ≠ ln_id := by
        intro he
        rw [he, hnact] at haj
        exact absurd haj (by decide)
      have hi' := hvne i hine
      have hj' := hvne j hjne
      rw [hi'.1] at hpi
      obtain ⟨q1, q2⟩ := hvpc i j hi hj hvi hai hvj haj hpi
      refine ⟨by rw [hj'.1, q1], ?_⟩
      rw [hj'.2, q2, hi'.2]

lemma lane_get_virtual_pc_inv (c : WarpCtx) (ln_id : Nat) (w : WarpState)
    (h : warpInv c w) : warpInv c (lane_get_virtual_pc c ln_id w).2 := by
  obtain ⟨hv1, hc1, hf1⟩ := lane_is_valid_spec c ln_id w h.1
  rcases Bool.eq_false_or_eq_true
    ((lane_is_valid c ln_id w).2.ln ln_id).virtual_pc_p with hp | hp
  · rw [lane_get_virtual_pc_cached c ln_id w hp]
    exact warpInv_of_fields hc1 hf1 h
  · rw [lane_get_virtual_pc_fetch c ln_id w hp]
    exact lane_get_virtual_pc_fetch_inv c ln_id w
      (lane_is_valid c ln_id w).2 hf1 hc1 h

lemma warp_state_invalidate_ln (nl : Nat) (w : WarpState) (k : Nat) :
    (warp_state_invalidate nl w).ln k
      = if k < nl then lane_invalidate (w.ln k) else w.ln k := rfl

lemma warp_state_invalidate_warpInv (c : WarpCtx) (w : WarpState) :
    warpInv c (warp_state_invalidate c.num_lanes w) := by
  refine ⟨⟨?_, ?_⟩, ?_, ?_⟩
  · intro hb
    exact absurd hb (by simp [warp_state_invalidate])
  · intro hb
    exact absurd hb (by simp [warp_state_invalidate])
  · intro i j hi hj _ _ _ _ hp
    rw [warp_state_invalidate_ln, if_pos hi] at hp
    exact absurd hp (by simp [lane_invalidate])
  · intro i j hi hj _ _ _ _ hp
    rw [warp_state_invalidate_ln, if_pos hi] at hp
    exact absurd hp (by simp [lane_invalidate])

lemma exampleWarp_warpInv (c : WarpCtx) : warpInv c exampleWarp := by
  refine ⟨⟨?_, ?_⟩, ?_, ?_⟩
  · intro hb
    exact absurd hb (by simp [exampleWarp])
  · intro hb
    exact absurd hb (by simp [exampleWarp])
  · intro i j _ _ _ _ _ _ hp
    exact absurd hp (by simp [exampleWarp, exampleLane])
  · intro i j _ _ _ _ _ _ hp
    exact absurd hp (by simp [exampleWarp, exampleLane])

/-- Every reachable warp-cache state satisfies the invariant: the mask
caches mirror the oracle, and the PC / virtual-PC caches of the valid
active lanes are coherent. -/
lemma warpInv_reachable (c : WarpCtx) (w : WarpState)
    (h : WarpReachable c w) : warpInv c w := by
  induction h with
  | init => exact exampleWarp_warpInv c
  | get_valid_mask h ih =>
      obtain ⟨hv, hc, hf⟩ := wgvlm_spec c _ ih.1
      exact warpInv_of_fields hc hf ih
  | get_active_mask h ih =>
      obtain ⟨hv, hc, hf⟩ := wgalm_spec c _ ih.1
      exact warpInv_of_fields hc hf ih
  | get_divergent_mask h ih =>
      obtain ⟨hv, hc, hf⟩ := wgdlm_spec c _ ih.1
      exact warpInv_of_fields hc hf ih
  | is_valid ln_id hlt h ih =>
      obtain ⟨hv, hc, hf⟩ := lane_is_valid_spec c ln_id _ ih.1
      exact warpInv_of_fields hc hf ih
  | is_active ln_id hlt hv h ih =>
      obtain ⟨ha, hc, hf⟩ := lane_is_active_spec c ln_id _ ih.1
      exact warpInv_of_fields hc hf ih
  | is_divergent ln_id hlt hv h ih =>
      obtain ⟨hc, hf⟩ := lane_is_divergent_spec c ln_id _ ih.1
      exact warpInv_of_fields hc hf ih
  | get_pc ln_id hlt hv h ih => exact lane_get_pc_inv c ln_id _ ih
  | get_virtual_pc ln_id hlt hv h ih =>
      exact lane_get_virtual_pc_inv c ln_id _ ih
  | invalidate h ih => exact warp_state_invalidate_warpInv c _

/-- Mask `a` is a subset of mask `v`, bitwise. -/
def maskSubset (a v : Nat) : Prop :=
  ∀ i, a.testBit i = true → v.testBit i = true

/-- An oracle that violates the hardware guarantee: the active mask has
a bit outside the valid mask. -/
def badWarpApi : WarpApi := ⟨0, 1, fun _ => 0, fun _ => 0⟩

def badWarpCtx : WarpCtx := ⟨4, 0, true, badWarpApi⟩

/-- A well-behaved oracle: active mask 1 inside valid mask 3. -/
def goodWarpApi : WarpApi := ⟨3, 1, fun _ => 0, fun _ => 0⟩

def goodWarpCtx : WarpCtx := ⟨4, 0, true, goodWarpApi⟩

/-- Counterexample for C8: the mirror does not enforce
`active ⊆ valid` — with a debug-API oracle that reports an active lane
outside the valid mask, a reachable state of a valid warp violates the
subset claim (`warp_get_active_lanes_mask` caches the API value
unchecked). -/
theorem C8_masks_counterexample :
    ¬ (∀ (c : WarpCtx) (w : WarpState), WarpReachable c w →
        c.warp_valid = true →
        maskSubset (warp_get_active_lanes_mask c w).1
          (warp_get_valid_lanes_mask c w).1) := by
  intro hcl
  have h := hcl badWarpCtx exampleWarp WarpReachable.init rfl
  have ha : (warp_get_active_lanes_mask badWarpCtx exampleWarp).1.testBit 0
      = true := by decide
  have hv := h 0 ha
  exact absurd hv (by decide)

/-- C8 (amended).  Provided the debug API reports an active-lanes mask
contained in the valid-lanes mask (the hardware guarantee the mirror
relies on but does not check), in every reachable state of a valid warp
the warp's active mask is a subset of its valid mask; and in every
reachable state `warp_get_divergent_lanes_mask` returns exactly
`valid AND NOT active` (bitwise, as uint32 values). -/
theorem C8_masks_amended (c : WarpCtx) (w : WarpState)
    (h : WarpReachable c w) :
    (c.warp_valid = true →
      maskSubset c.api.active_lanes c.api.valid_lanes →
      maskSubset (warp_get_active_lanes_mask c w).1
        (warp_get_valid_lanes_mask c w).1) ∧
    (c.api.valid_lanes < 2 ^ 32 →
      ∀ i, (warp_get_divergent_lanes_mask c w).1.testBit i
        = ((warp_get_valid_lanes_mask c w).1.testBit i
            && !((warp_get_active_lanes_mask c w).1.testBit i))) := by
  have hinv := warpInv_reachable c w h
  obtain ⟨hvv, hcv, hfv⟩ := wgvlm_spec c w hinv.1
  obtain ⟨hva, hca, hfa⟩ := wgalm_spec c w hinv.1
  obtain ⟨hvd, hcd, hfd⟩ := wgdlm_spec c w hinv.1
  constructor
  · intro hv hsub i hbit
    rw [hva] at hbit
    rw [hvv]
    unfold effValidLanesMask
    rw [hv]
    simp only [if_true]
    exact hsub i hbit
  · intro h32 i
    have heff : effValidLanesMask c < 2 ^ 32 := by
      unfold effValidLanesMask
      split_ifs
      · exact h32
      · positivity
    rw [hvd, hvv, hva]
    unfold uint32_complement
    rw [Nat.testBit_and, Nat.testBit_xor, Nat.testBit_two_pow_sub_one]
    by_cases hi : i < 32
    · simp [hi]
    · have hz : (effValidLanesMask c).testBit i = false := by
        apply Nat.testBit_lt_two_pow
        calc effValidLanesMask c < 2 ^ 32 := heff
          _ ≤ 2 ^ i := Nat.pow_le_pow_right (by omega) (by omega)
      simp [hi, hz]

lemma maskSubset_one_three : maskSubset 1 3 := by
  intro i hb
  match i with
  | 0 => decide
  | n + 1 => simp [Nat.testBit_succ] at hb

/-- Witness for C8 (amended) at a concrete oracle and the initial
state. -/
theorem C8_masks_amended_witness :
    goodWarpCtx.warp_valid = true ∧
    maskSubset goodWarpCtx.api.active_lanes goodWarpCtx.api.valid_lanes ∧
    maskSubset (warp_get_active_lanes_mask goodWarpCtx exampleWarp).1
      (warp_get_valid_lanes_mask goodWarpCtx exampleWarp).1 :=
  ⟨rfl, maskSubset_one_three,
   (C8_masks_amended goodWarpCtx exampleWarp WarpReachable.init).1 rfl
     maskSubset_one_three⟩

lemma lane_get_pc_propagation (c : WarpCtx) (w : WarpState) (ln_id : Nat)
    (hreach : WarpReachable c w)
    (hsub : maskSubset c.api.active_lanes (effValidLanesMask c))
    (hlt : ln_id < c.num_lanes)
    (hvalid : (lane_is_valid c ln_id w).1 = true)
    (hactive : c.api.active_lanes.testBit ln_id = true) :
    ∀ j, j < c.num_lanes → c.api.active_lanes.testBit j = true →
      ((lane_get_pc c ln_id w).2.ln j).pc_p = true ∧
      ((lane_get_pc c ln_id w).2.ln j).pc = (lane_get_pc c ln_id w).1.1 ∧
      (lane_get_pc c j (lane_get_pc c ln_id w).2).1
        = ((lane_get_pc c ln_id w).1.1, 0) := by
  obtain ⟨hmc, hpc, hvpc⟩ := warpInv_reachable c w hreach
  obtain ⟨hv1, hc1, hf1⟩ := lane_is_valid_spec c ln_id w hmc
  have hveff : (effValidLanesMask c).testBit ln_id = true := by
    rw [← hv1]; exact hvalid
  rcases Bool.eq_false_or_eq_true
    ((lane_is_valid c ln_id w).2.ln ln_id).pc_p with hp | hp
  · -- the pc was already cached: the coherence invariant gives the claim
    rw [lane_get_pc_cached c ln_id w hp]
    have hfln := laneCacheFields_eq_iff.mp (hf1 ln_id)
    have hw : (w.ln ln_id).pc_p = true := by rw [← hfln.1]; exact hp
    intro j hj hja
    have hjv : (effValidLanesMask c).testBit j = true := hsub j hja
    obtain ⟨q1, q2⟩ := hpc ln_id j hlt hj hveff hactive hjv hja hw
    have hfj := laneCacheFields_eq_iff.mp (hf1 j)
    obtain ⟨hv1', hc1', hf1'⟩ :=
      lane_is_valid_spec c j (lane_is_valid c ln_id w).2 hc1
    have hfj' := laneCacheFields_eq_iff.mp (hf1' j)
    have hpj : ((lane_is_valid c j
        (lane_is_valid c ln_id w).2).2.ln j).pc_p = true := by
      rw [hfj'.1, hfj.1]; exact q1
    refine ⟨by rw [hfj.1]; exact q1, by rw [hfj.2.1, q2, ← hfln.2.1], ?_⟩
    rw [lane_get_pc_cached c j (lane_is_valid c ln_id w).2 hpj]
    have hval : ((lane_is_valid c j
        (lane_is_valid c ln_id w).2).2.ln j).pc
        = ((lane_is_valid c ln_id w).2.ln ln_id).pc := by
      rw [hfj'.2.1, hfj.2.1, q2, ← hfln.2.1]
    rw [hval]
  · -- fresh fetch: the propagation loop writes every valid active lane
    rw [lane_get_pc_fetch c ln_id w hp]
    have hc2 : maskConsistent c (lane_set_pc_cached (c.api.pc ln_id)
        ln_id (lane_is_valid c ln_id w).2) := hc1
    obtain ⟨ha1, hc3, hf3⟩ := lane_is_active_spec c ln_id
      (lane_set_pc_cached (c.api.pc ln_id) ln_id
        (lane_is_valid c ln_id w).2) hc2
    have hact : (lane_is_active c ln_id (lane_set_pc_cached (c.api.pc ln_id)
        ln_id (lane_is_valid c ln_id w).2)).1 = true := by
      rw [ha1]; exact hactive
    rw [if_pos hact, lane_pc_propagate_eq_upto]
    obtain ⟨pc1, pkeep, pset⟩ :=
      lane_pc_propagate_upto_spec c (c.api.pc ln_id) c.num_lanes
        (lane_is_active c ln_id (lane_set_pc_cached (c.api.pc ln_id)
          ln_id (lane_is_valid c ln_id w).2)).2 hc3
    intro j hj hja
    have hjv : (effValidLanesMask c).testBit j = true := hsub j hja
    have hbj : ((effValidLanesMask c).testBit j
        && c.api.active_lanes.testBit j) = true := by rw [hjv, hja]; rfl
    obtain ⟨s1, s2, -, -⟩ := pset j hj hbj
    obtain ⟨hv1'', hc1'', hf1''⟩ := lane_is_valid_spec c j
      (lane_pc_propagate_upto c (c.api.pc ln_id) c.num_lanes
        (lane_is_active c ln_id (lane_set_pc_cached (c.api.pc ln_id)
          ln_id (lane_is_valid c ln_id w).2)).2) pc1
    have hfj'' := laneCacheFields_eq_iff.mp (hf1'' j)
    have hpj : ((lane_is_valid c j
        (lane_pc_propagate_upto c (c.api.pc ln_id) c.num_lanes
          (lane_is_active c ln_id (lane_set_pc_cached (c.api.pc ln_id)
            ln_id (lane_is_valid c ln_id w).2)).2)).2.ln j).pc_p
        = true := by
      rw [hfj''.1]; exact s1
    refine ⟨s1, s2, ?_⟩
    rw [lane_get_pc_cached c j _ hpj]
    have hval : ((lane_is_valid c j
        (lane_pc_propagate_upto c (c.api.pc ln_id) c.num_lanes
          (lane_is_active c ln_id (lane_set_pc_cached (c.api.pc ln_id)
            ln_id (lane_is_valid c ln_id w).2)).2)).2.ln j).pc
        = c.api.pc ln_id := by
      rw [hfj''.2.1]; exact s2
    rw [hval]

lemma lane_get_virtual_pc_propagation (c : WarpCtx) (w : WarpState)
    (ln_id : Nat) (hreach : WarpReachable c w)
    (hsub : maskSubset c.api.active_lanes (effValidLanesMask c))
    (hlt : ln_id < c.num_lanes)
    (hvalid : (lane_is_valid c ln_id w).1 = true)
    (hactive : c.api.active_lanes.testBit ln_id = true) :
    ∀ j, j < c.num_lanes → c.api.active_lanes.testBit j = true →
      ((lane_get_virtual_pc c ln_id w).2.ln j).virtual_pc_p = true ∧
      ((lane_get_virtual_pc c ln_id w).2.ln j).virtual_pc
        = (lane_get_virtual_pc c ln_id w).1.1 ∧
      (lane_get_virtual_pc c j (lane_get_virtual_pc c ln_id w).2).1
        = ((lane_get_virtual_pc c ln_id w).1.1, 0) := by
  obtain ⟨hmc, hpc, hvpc⟩ := warpInv_reachable c w hreach
  obtain ⟨hv1, hc1, hf1⟩ := lane_is_valid_spec c ln_id w hmc
  have hveff : (effValidLanesMask c).testBit ln_id = true := by
    rw [← hv1]; exact hvalid
  rcases Bool.eq_false_or_eq_true
    ((lane_is_valid c ln_id w).2.ln ln_id).virtual_pc_p with hp | hp
  · rw [lane_get_virtual_pc_cached c ln_id w hp]
    have hfln := laneCacheFields_eq_iff.mp (hf1 ln_id)
    have hw : (w.ln ln_id).virtual_pc_p = true := by
      rw [← hfln.2.2.1]; exact hp
    intro j hj hja
    have hjv : (effValidLanesMask c).testBit j = true := hsub j hja
    obtain ⟨q1, q2⟩ := hvpc ln_id j hlt hj hveff hactive hjv hja hw
    have hfj := laneCacheFields_eq_iff.mp (hf1 j)
    obtain ⟨hv1', hc1', hf1'⟩ :=
      lane_is_valid_spec c j (lane_is_valid c ln_id w).2 hc1
    have hfj' := laneCacheFields_eq_iff.mp (hf1' j)
    have hpj : ((lane_is_valid c j
        (lane_is_valid c ln_id w).2).2.ln j).virtual_pc_p = true := by
      rw [hfj'.2.2.1, hfj.2.2.1]; exact q1
    refine ⟨by rw [hfj.2.2.1]; exact q1,
      by rw [hfj.2.2.2, q2, ← hfln.2.2.2], ?_⟩
    rw [lane_get_virtual_pc_cached c j (lane_is_valid c ln_id w).2 hpj]
    have hval : ((lane_is_valid c j
        (lane_is_valid c ln_id w).2).2.ln j).virtual_pc
        = ((lane_is_valid c ln_id w).2.ln ln_id).virtual_pc := by
      rw [hfj'.2.2.2, hfj.2.2.2, q2, ← hfln.2.2.2]
    rw [hval]
  · rw [lane_get_virtual_pc_fetch c ln_id w hp]
    have hc2 : maskConsistent c
        (lane_set_virtual_pc_cached (c.api.virtual_pc ln_id) ln_id
          (lane_is_valid c ln_id w).2) := hc1
    obtain ⟨ha1, hc3, hf3⟩ := lane_is_active_spec c ln_id
      (lane_set_virtual_pc_cached (c.api.virtual_pc ln_id) ln_id
        (lane_is_valid c ln_id w).2) hc2
    have hact : (lane_is_active c ln_id
        (lane_set_virtual_pc_cached (c.api.virtual_pc ln_id) ln_id
          (lane_is_valid c ln_id w).2)).1 = true := by
      rw [ha1]; exact hactive
    rw [if_pos hact, lane_virtual_pc_propagate_eq_upto]
    obtain ⟨pc1, pkeep, pset⟩ :=
      lane_virtual_pc_propagate_upto_spec c (c.api.virtual_pc ln_id)
        c.num_lanes
        (lane_is_active c ln_id
          (lane_set_virtual_pc_cached (c.api.virtual_pc ln_id) ln_id
            (lane_is_valid c ln_id w).2)).2 hc3
    intro j hj hja
    have hjv : (effValidLanesMask c).testBit j = true := hsub j hja
    have hbj : ((effValidLanesMask c).testBit j
        && c.api.active_lanes.testBit j) = true := by rw [hjv, hja]; rfl
    obtain ⟨s1, s2, -, -⟩ := pset j hj hbj
    obtain ⟨hv1'', hc1'', hf1''⟩ := lane_is_valid_spec c j
      (lane_virtual_pc_propagate_upto c (c.api.virtual_pc ln_id)
        c.num_lanes
        (lane_is_active c ln_id
          (lane_set_virtual_pc_cached (c.api.virtual_pc ln_id) ln_id
            (lane_is_valid c ln_id w).2)).2) pc1
    have hfj'' := laneCacheFields_eq_iff.mp (hf1'' j)
    have hpj : ((lane_is_valid c j
        (lane_virtual_pc_propagate_upto c (c.api.virtual_pc ln_id)
          c.num_lanes
          (lane_is_active c ln_id
            (lane_set_virtual_pc_cached (c.api.virtual_pc ln_id) ln_id
              (lane_is_valid c ln_id w).2)).2)).2.ln j).virtual_pc_p
        = true := by
      rw [hfj''.2.2.1]; exact s1
    refine ⟨s1, s2, ?_⟩
    rw [lane_get_virtual_pc_cached c j _ hpj]
    have hval : ((lane_is_valid c j
        (lane_virtual_pc_propagate_upto c (c.api.virtual_pc ln_id)
          c.num_lanes
          (lane_is_active c ln_id
            (lane_set_virtual_pc_cached (c.api.virtual_pc ln_id) ln_id
              (lane_is_valid c ln_id w).2)).2)).2.ln j).virtual_pc
        = c.api.virtual_pc ln_id := by
      rw [hfj''.2.2.2]; exact s2
    rw [hval]

/-- C2.  After a `lane_get_pc` (respectively `lane_get_virtual_pc`) call
on an active, valid lane of a warp (the code's asserted preconditions),
the pc (respectively virtual-pc) cache slots of every active lane of the
warp are marked present and hold the same value as the call returned,
and a subsequent read on any of those lanes returns that cached value
with zero further debug-API pc reads.  The hypothesis `hsub` is the
hardware guarantee `active ⊆ valid` (spec §8 invariant 1) under which
"every active lane" is reached by the propagation loop. -/
theorem C2_lane_pc_propagation (c : WarpCtx) (w : WarpState)
    (ln_id : Nat) (hreach : WarpReachable c w)
    (hsub : maskSubset c.api.active_lanes (effValidLanesMask c))
    (hlt : ln_id < c.num_lanes)
    (hvalid : (lane_is_valid c ln_id w).1 = true)
    (hactive : c.api.active_lanes.testBit ln_id = true) :
    (∀ j, j < c.num_lanes → c.api.active_lanes.testBit j = true →
      ((lane_get_pc c ln_id w).2.ln j).pc_p = true ∧
      ((lane_get_pc c ln_id w).2.ln j).pc = (lane_get_pc c ln_id w).1.1 ∧
      (lane_get_pc c j (lane_get_pc c ln_id w).2).1
        = ((lane_get_pc c ln_id w).1.1, 0)) ∧
    (∀ j, j < c.num_lanes → c.api.active_lanes.testBit j = true →
      ((lane_get_virtual_pc c ln_id w).2.ln j).virtual_pc_p = true ∧
      ((lane_get_virtual_pc c ln_id w).2.ln j).virtual_pc
        = (lane_get_virtual_pc c ln_id w).1.1 ∧
      (lane_get_virtual_pc c j (lane_get_virtual_pc c ln_id w).2).1
        = ((lane_get_virtual_pc c ln_id w).1.1, 0)) :=
  ⟨lane_get_pc_propagation c w ln_id hreach hsub hlt hvalid hactive,
   lane_get_virtual_pc_propagation c w ln_id hreach hsub hlt hvalid
     hactive⟩

/-- Witness for C2: concrete oracle, the initial state, lane 0. -/
theorem C2_lane_pc_propagation_witness :
    (0 < goodWarpCtx.num_lanes ∧
      (lane_is_valid goodWarpCtx 0 exampleWarp).1 = true ∧
      goodWarpCtx.api.active_lanes.testBit 0 = true) ∧
    (((lane_get_pc goodWarpCtx 0 exampleWarp).2.ln 0).pc_p = true ∧
      ((lane_get_pc goodWarpCtx 0 exampleWarp).2.ln 0).pc
        = (lane_get_pc goodWarpCtx 0 exampleWarp).1.1 ∧
      (lane_get_pc goodWarpCtx 0
        (lane_get_pc goodWarpCtx 0 exampleWarp).2).1
        = ((lane_get_pc goodWarpCtx 0 exampleWarp).1.1, 0)) ∧
    (((lane_get_virtual_pc goodWarpCtx 0 exampleWarp).2.ln
        0).virtual_pc_p = true ∧
      ((lane_get_virtual_pc goodWarpCtx 0 exampleWarp).2.ln 0).virtual_pc
        = (lane_get_virtual_pc goodWarpCtx 0 exampleWarp).1.1 ∧
      (lane_get_virtual_pc goodWarpCtx 0
        (lane_get_virtual_pc goodWarpCtx 0 exampleWarp).2).1
        = ((lane_get_virtual_pc goodWarpCtx 0 exampleWarp).1.1, 0)) :=
  ⟨⟨by decide, by decide, by decide⟩,
   (C2_lane_pc_propagation goodWarpCtx exampleWarp 0 WarpReachable.init
     maskSubset_one_three (by decide) (by decide) (by decide)).1 0
     (by decide) (by decide),
   (C2_lane_pc_propagation goodWarpCtx exampleWarp 0 WarpReachable.init
     maskSubset_one_three (by decide) (by decide) (by decide)).2 0
     (by decide) (by decide)⟩

/- ------------------------------------------------------------------ -/
/- Section 4: event handlers (cuda-events.c)                           -/
/- ------------------------------------------------------------------ -/

/-- `~0U`: the invalid thread id sentinel. -/
def invalidTid : Nat := 4294967295

/-- The error message of the `tid == ~0U` guard in cuda-events.c. -/
def invalidTidMsg : String := "A CUDA event reported an invalid thread id."

/-- `cuda_api_get_attach_state` values relevant to the handlers. -/
inductive AttachState
  | not_started
  | in_progress
  | app_ready
  | detach_complete
  deriving DecidableEq, Repr

/-- `context_st`: the CUcontext handle and the owning device (modules
omitted — no claim under study concerns them). -/
structure Context where
  context_id : Nat
  dev_id : Nat
  deriving DecidableEq, Repr

/-- Modelled from the spec: the per-device context registry
(`contexts_st`, §4.3; its implementation file is not part of the
sources) — an unordered list of contexts plus per-host-thread LIFO
stacks. -/
structure Contexts where
  list : List Context
  thread_stacks : Nat → List Context

/-- Modelled from the spec: `contexts_add_context` (O(n) list add). -/
def contexts_add_context (cs : Contexts) (ctx : Context) : Contexts :=
  { cs with list := ctx :: cs.list }

/-- Modelled from the spec: `contexts_remove_context`. -/
def contexts_remove_context (cs : Contexts) (ctx : Context) : Contexts :=
  { cs with list := cs.list.erase ctx }

/-- Modelled from the spec: `contexts_stack_context` (push on the tid's
stack). -/
def contexts_stack_context (cs : Contexts) (ctx : Context) (tid : Nat) :
    Contexts :=
  { cs with thread_stacks := Function.update cs.thread_stacks tid (ctx :: cs.thread_stacks tid) }

/-- Modelled from the spec: `contexts_unstack_context` (pop the tid's
stack, returning the popped context). -/
def contexts_unstack_context (cs : Contexts) (tid : Nat) :
    Option Context × Contexts :=
  ((cs.thread_stacks tid).head?,
   { cs with thread_stacks := Function.update cs.thread_stacks tid (cs.thread_stacks tid).tail })

/-- Modelled from the spec: `contexts_get_active_context` (stack top). -/
def contexts_get_active_context (cs : Contexts) (tid : Nat) :
    Option Context :=
  (cs.thread_stacks tid).head?

/-- Modelled from the spec: `contexts_find_context_by_id`. -/
def contexts_find_context_by_id (cs : Contexts) (context_id : Nat) :
    Option Context :=
  cs.list.find? (fun c => c.context_id == context_id)

/-- The world the event handlers act on: the per-device context
registries, the UI's current context (`get/set_current_context`), the
auto-breakpoints as (address, anchor context id) pairs
(`cuda_create_auto_breakpoint` / `cuda_cleanup_auto_breakpoints`), the
context ids with resolved breakpoints (`cuda_unresolve_breakpoints`
removes one), the kernel registry keyed by (dev, grid)
(`kernels_start_kernel`), and the attach state.  The host-debugger
callbacks among these are modelled from the spec. -/
structure EventWorld where
  contexts : Nat → Contexts
  cur_context : Option Context
  auto_breakpoints : List (Nat × Nat)
  resolved_contexts : List Nat
  kernels : List (Nat × Nat)
  attach : AttachState

/-- The externally visible steps of `cuda_event_destroy_context`, used
to state in which order its effects happen. -/
inductive EventAction
  | pop_context
  | clear_current_context
  | cleanup_auto_breakpoints (context_id : Nat)
  | unresolve_breakpoints (context_id : Nat)
  | remove_context
  | delete_context
  deriving DecidableEq, Repr

/-- `cuda_event_create_context`: fatal on `tid == ~0U`; else create the
context, add it to the device's list and push it on the tid's stack. -/
def cuda_event_create_context (dev_id context_id tid : Nat)
    (w : EventWorld) : Except String EventWorld :=
  if tid == invalidTid then Except.error invalidTidMsg
  else
    let cs := w.contexts dev_id
    let ctx : Context := ⟨context_id, dev_id⟩
    let cs2 := contexts_stack_context (contexts_add_context cs ctx) ctx tid
    Except.ok { w with contexts := Function.update w.contexts dev_id cs2 }

/-- `cuda_event_destroy_context`: fatal on `tid == ~0U`; else find the
context by id; if it is the tid's active context, pop it; if it is the
UI's current context, clear the current-context pointer; remove the
auto-breakpoints anchored at the context id; unresolve the context's
breakpoints; remove the context from the device's list and delete it.
The returned action list records the order of these effects. -/
def cuda_event_destroy_context (dev_id context_id tid : Nat)
    (w : EventWorld) : Except String (EventWorld × List EventAction) :=
  if tid == invalidTid then Except.error invalidTidMsg
  else
    let cs := w.contexts dev_id
    let c0 := contexts_find_context_by_id cs context_id
    let step1 : Option Context × Contexts × List EventAction :=
      if contexts_get_active_context cs tid = c0 then
        ((contexts_unstack_context cs tid).1,
         (contexts_unstack_context cs tid).2, [EventAction.pop_context])
      else (c0, cs, [])
    let ctx := step1.1
    let cs1 := step1.2.1
    let step2 : Option Context × List EventAction :=
      if ctx = w.cur_context then (none, [EventAction.clear_current_context])
      else (w.cur_context, [])
    let cs2 := match ctx with
      | some c => contexts_remove_context cs1 c
      | none => cs1
    Except.ok
      ({ w with contexts := Function.update w.contexts dev_id cs2,
                cur_context := step2.1,
                auto_breakpoints :=
                  w.auto_breakpoints.filter (fun p => p.2 != context_id),
                resolved_contexts :=
                  w.resolved_contexts.filter (fun id => id != context_id) },
       step1.2.2 ++ step2.2
         ++ [EventAction.cleanup_auto_breakpoints context_id,
             EventAction.unresolve_breakpoints context_id,
             EventAction.remove_context, EventAction.delete_context])

/-- `cuda_event_push_context`: ignored while an attach is in progress
(this check precedes the tid check); then fatal on `tid == ~0U`; else
push the found context on the tid's stack. -/
def cuda_event_push_context (dev_id context_id tid : Nat)
    (w : EventWorld) : Except String EventWorld :=
  if w.attach ≠ AttachState.not_started then Except.ok w
  else if tid == invalidTid then Except.error invalidTidMsg
  else
    let cs := w.contexts dev_id
    match contexts_find_context_by_id cs context_id with
    | some ctx =>
        let cs2 := contexts_stack_context cs ctx tid
        Except.ok { w with
          contexts := Function.update w.contexts dev_id cs2 }
    | none => Except.ok w

/-- `cuda_event_pop_context`: ignored while an attach is in progress
(this check precedes the tid check); then fatal on `tid == ~0U`; else
pop the tid's stack (the popped context's id is asserted to match). -/
def cuda_event_pop_context (dev_id context_id tid : Nat)
    (w : EventWorld) : Except String EventWorld :=
  if w.attach ≠ AttachState.not_started then Except.ok w
  else if tid == invalidTid then Except.error invalidTidMsg
  else
    let cs := w.contexts dev_id
    let cs2 := (contexts_unstack_context cs tid).2
    Except.ok { w with contexts := Function.update w.contexts dev_id cs2 }

/-- `cuda_event_kernel_ready`: fatal on `tid == ~0U`; else register the
kernel and, when the break-on-launch option applies to the kernel's
type, create an auto-breakpoint at the entry pc anchored at the
context. -/
def cuda_event_kernel_ready (dev_id context_id grid_id tid entry_pc : Nat)
    (break_on_launch : Bool) (w : EventWorld) : Except String EventWorld :=
  if tid == invalidTid then Except.error invalidTidMsg
  else
    let w1 := { w with kernels := (dev_id, grid_id) :: w.kernels }
    let w2 := if break_on_launch then
        { w1 with auto_breakpoints :=
            (entry_pc, context_id) :: w1.auto_breakpoints }
      else w1
    Except.ok w2

/-- An empty event world, not attaching. -/
def exampleEventWorld : EventWorld :=
  { contexts := fun _ => ⟨[], fun _ => []⟩, cur_context := none,
    auto_breakpoints := [], resolved_contexts := [], kernels := [],
    attach := AttachState.not_started }

/-- The same world while an attach is in progress (state `APP_READY`). -/
def exampleEventWorldAttach : EventWorld :=
  { exampleEventWorld with attach := AttachState.app_ready }

/-- Counterexample for C4: during an attach, a `CTX_PUSH` event whose
tid is `~0U` is silently ignored (the attach-state check precedes the
tid check), so the invalid thread id is not fatal in every attach
state. -/
theorem C4_invalid_tid_counterexample :
    cuda_event_push_context 0 10 invalidTid exampleEventWorldAttach
      = Except.ok exampleEventWorldAttach := rfl

/-- C4 (amended).  An event carrying `tid = ~0U` fails with the error
"A CUDA event reported an invalid thread id" for `CTX_CREATE`,
`CTX_DESTROY` and `KERNEL_READY` in every attach state; for `CTX_PUSH`
and `CTX_POP` it is fatal exactly when no attach is in progress
(attach state `NOT_STARTED`) — while an attach is in progress those two
events are ignored before the tid is examined. -/
theorem C4_invalid_tid_amended (w : EventWorld)
    (dev ctxid grid entry : Nat) (bol : Bool) :
    cuda_event_create_context dev ctxid invalidTid w
      = Except.error invalidTidMsg ∧
    cuda_event_destroy_context dev ctxid invalidTid w
      = Except.error invalidTidMsg ∧
    cuda_event_kernel_ready dev ctxid grid invalidTid entry bol w
      = Except.error invalidTidMsg ∧
    (w.attach = AttachState.not_started →
      cuda_event_push_context dev ctxid invalidTid w
        = Except.error invalidTidMsg ∧
      cuda_event_pop_context dev ctxid invalidTid w
        = Except.error invalidTidMsg) ∧
    (w.attach ≠ AttachState.not_started →
      cuda_event_push_context dev ctxid invalidTid w = Except.ok w ∧
      cuda_event_pop_context dev ctxid invalidTid w = Except.ok w) := by
  refine ⟨?_, ?_, ?_, ?_, ?_⟩
  · unfold cuda_event_create_context
    rw [if_pos (by decide)]
  · unfold cuda_event_destroy_context
    rw [if_pos (by decide)]
  · unfold cuda_event_kernel_ready
    rw [if_pos (by decide)]
  · intro ha
    have hno : ¬ w.attach ≠ AttachState.not_started := by
      intro hcon; exact hcon ha
    constructor
    · unfold cuda_event_push_context
      rw [if_neg hno, if_pos (by decide)]
    · unfold cuda_event_pop_context
      rw [if_neg hno, if_pos (by decide)]
  · intro ha
    constructor
    · unfold cuda_event_push_context
      rw [if_pos ha]
    · unfold cuda_event_pop_context
      rw [if_pos ha]

/-- Witness for C4 (amended) at a concrete world with no attach in
progress. -/
theorem C4_invalid_tid_amended_witness :
    cuda_event_create_context 0 10 invalidTid exampleEventWorld
      = Except.error invalidTidMsg ∧
    (exampleEventWorld.attach = AttachState.not_started →
      cuda_event_push_context 0 10 invalidTid exampleEventWorld
        = Except.error invalidTidMsg ∧
      cuda_event_pop_context 0 10 invalidTid exampleEventWorld
        = Except.error invalidTidMsg) :=
  ⟨(C4_invalid_tid_amended exampleEventWorld 0 10 7 4096 false).1,
   (C4_invalid_tid_amended exampleEventWorld 0 10 7 4096 false).2.2.2.1⟩

/-- C6.  Processing `CTX_DESTROY(dev, ctx, tid)` (with a valid tid): if
the context is the tid's active context it is popped from the tid's
stack; if it is the UI's current context the current-context pointer is
cleared to null (otherwise it is untouched); the auto-breakpoints
anchored at the context id are removed and the context's breakpoints are
unresolved; the context is removed from the device's list — and the
action trace shows the pop, the current-pointer clear, the
auto-breakpoint cleanup and the unresolve all happen before the removal
and deletion. -/
theorem C6_destroy_context_effects (dev_id context_id tid : Nat)
    (w : EventWorld) (hn : (tid == invalidTid) = false) :
    ∃ w' tr,
      cuda_event_destroy_context dev_id context_id tid w
        = Except.ok (w', tr) ∧
      (contexts_get_active_context (w.contexts dev_id) tid
          = contexts_find_context_by_id (w.contexts dev_id) context_id →
        (w'.contexts dev_id).thread_stacks tid
          = ((w.contexts dev_id).thread_stacks tid).tail) ∧
      (contexts_find_context_by_id (w.contexts dev_id) context_id
          = w.cur_context → w'.cur_context = none) ∧
      (contexts_find_context_by_id (w.contexts dev_id) context_id
          ≠ w.cur_context → w'.cur_context = w.cur_context) ∧
      w'.auto_breakpoints
        = w.auto_breakpoints.filter (fun p => p.2 != context_id) ∧
      w'.resolved_contexts
        = w.resolved_contexts.filter (fun id => id != context_id) ∧
      (∀ c, contexts_find_context_by_id (w.contexts dev_id) context_id
          = some c →
        (w'.contexts dev_id).list = ((w.contexts dev_id).list).erase c) ∧
      tr = (if contexts_get_active_context (w.contexts dev_id) tid
              = contexts_find_context_by_id (w.contexts dev_id) context_id
            then [EventAction.pop_context] else [])
        ++ (if contexts_find_context_by_id (w.contexts dev_id) context_id
              = w.cur_context
            then [EventAction.clear_current_context] else [])
        ++ [EventAction.cleanup_auto_breakpoints context_id,
            EventAction.unresolve_breakpoints context_id,
            EventAction.remove_context, EventAction.delete_context] := by
  unfold cuda_event_destroy_context
  simp only [hn, Bool.false_eq_true, if_false]
  by_cases hpop : contexts_get_active_context (w.contexts dev_id) tid
      = contexts_find_context_by_id (w.contexts dev_id) context_id
  · have hctx : (contexts_unstack_context (w.contexts dev_id) tid).1
        = contexts_find_context_by_id (w.contexts dev_id) context_id :=
      hpop
    simp only [if_pos hpop, hctx]
    by_cases hcur : contexts_find_context_by_id (w.contexts dev_id)
        context_id = w.cur_context
    · simp only [if_pos hcur]
      refine ⟨_, _, rfl, ?_, fun _ => rfl, ?_, rfl, rfl, ?_, ?_⟩
      · intro _
        cases hc0 : contexts_find_context_by_id (w.contexts dev_id)
            context_id <;>
          simp [hc0, contexts_remove_context, contexts_unstack_context,
            Function.update_same]
      · intro hcon
        exact absurd hcur hcon
      · intro c hc
        simp [hc, contexts_remove_context, contexts_unstack_context,
          Function.update_same]
      · simp [hpop, hcur]
    · simp only [if_neg hcur]
      refine ⟨_, _, rfl, ?_, ?_, fun _ => rfl, rfl, rfl, ?_, ?_⟩
      · intro _
        cases hc0 : contexts_find_context_by_id (w.contexts dev_id)
            context_id <;>
          simp [hc0, contexts_remove_context, contexts_unstack_context,
            Function.update_same]
      · intro hcon
        exact absurd hcon hcur
      · intro c hc
        simp [hc, contexts_remove_context, contexts_unstack_context,
          Function.update_same]
      · simp [hpop, hcur]
  · simp only [if_neg hpop]
    by_cases hcur : contexts_find_context_by_id (w.contexts dev_id)
        context_id = w.cur_context
    · simp only [if_pos hcur]
      refine ⟨_, _, rfl, ?_, fun _ => rfl, ?_, rfl, rfl, ?_, ?_⟩
      · intro hcon
        exact absurd hcon hpop
      · intro hcon
        exact absurd hcur hcon
      · intro c hc
        simp [hc, contexts_remove_context, Function.update_same]
      · simp [hpop, hcur]
    · simp only [if_neg hcur]
      refine ⟨_, _, rfl, ?_, ?_, fun _ => rfl, rfl, rfl, ?_, ?_⟩
      · intro hcon
        exact absurd hcon hpop
      · intro hcon
        exact absurd hcon hcur
      · intro c hc
        simp [hc, contexts_remove_context, Function.update_same]
      · simp [hpop, hcur]

/-- A context used in concrete event scenarios. -/
def ctxA : Context := ⟨10, 0⟩

/-- A world in which context 10 exists on device 0, is active for host
thread 100, is the UI's current context, and has an auto-breakpoint and
resolved breakpoints. -/
def exampleDestroyWorld : EventWorld :=
  { contexts := fun d =>
      if d = 0 then ⟨[ctxA], fun t => if t = 100 then [ctxA] else []⟩
      else ⟨[], fun _ => []⟩,
    cur_context := some ctxA,
    auto_breakpoints := [(4096, 10)],
    resolved_contexts := [10],
    kernels := [],
    attach := AttachState.not_started }

/-- Witness for C6 at the concrete destroy scenario. -/
theorem C6_destroy_context_effects_witness :
    ∃ w' tr,
      cuda_event_destroy_context 0 10 100 exampleDestroyWorld
        = Except.ok (w', tr) ∧
      (contexts_get_active_context (exampleDestroyWorld.contexts 0) 100
          = contexts_find_context_by_id (exampleDestroyWorld.contexts 0)
              10 →
        (w'.contexts 0).thread_stacks 100
          = ((exampleDestroyWorld.contexts 0).thread_stacks 100).tail) ∧
      (contexts_find_context_by_id (exampleDestroyWorld.contexts 0) 10
          = exampleDestroyWorld.cur_context → w'.cur_context = none) ∧
      (contexts_find_context_by_id (exampleDestroyWorld.contexts 0) 10
          ≠ exampleDestroyWorld.cur_context →
        w'.cur_context = exampleDestroyWorld.cur_context) ∧
      w'.auto_breakpoints
        = exampleDestroyWorld.auto_breakpoints.filter
            (fun p => p.2 != 10) ∧
      w'.resolved_contexts
        = exampleDestroyWorld.resolved_contexts.filter
            (fun id => id != 10) ∧
      (∀ c, contexts_find_context_by_id (exampleDestroyWorld.contexts 0) 10
          = some c →
        (w'.contexts 0).list
          = ((exampleDestroyWorld.contexts 0).list).erase c) ∧
      tr = (if contexts_get_active_context (exampleDestroyWorld.contexts 0)
              100
              = contexts_find_context_by_id
                  (exampleDestroyWorld.contexts 0) 10
            then [EventAction.pop_context] else [])
        ++ (if contexts_find_context_by_id (exampleDestroyWorld.contexts 0)
              10 = exampleDestroyWorld.cur_context
            then [EventAction.clear_current_context] else [])
        ++ [EventAction.cleanup_auto_breakpoints 10,
            EventAction.unresolve_breakpoints 10,
            EventAction.remove_context, EventAction.delete_context] :=
  C6_destroy_context_effects 0 10 100 exampleDestroyWorld (by decide)

/- ------------------------------------------------------------------ -/
/- Section 5: run_info_cuda_command (info-command wrapper)             -/
/- ------------------------------------------------------------------ -/

/-- The state `run_info_cuda_command` protects: the current focus
coordinate (abstracted to an identifier), the UI's current context, and
the two save/restore stacks.  `cuda_save_focus` / `cuda_restore_focus`
and `save_current_context` / `restore_current_context` are modelled from
the spec (§4.8 save/restore stack; their implementation files are not
part of the sources). -/
structure FocusWorld where
  focus : Nat
  cur_context : Option Context
  saved_focus : List Nat
  saved_contexts : List (Option Context)

/-- Modelled from the spec: `save_current_context` pushes the current
context on its save stack. -/
def save_current_context (w : FocusWorld) : FocusWorld :=
  { w with saved_contexts := w.cur_context :: w.saved_contexts }

/-- Modelled from the spec: `restore_current_context` pops the save
stack back into the current context. -/
def restore_current_context (w : FocusWorld) : FocusWorld :=
  match w.saved_contexts with
  | [] => w
  | c :: rest => { w with cur_context := c, saved_contexts := rest }

/-- Modelled from the spec: `cuda_save_focus` pushes the current focus
on its save stack. -/
def cuda_save_focus (w : FocusWorld) : FocusWorld :=
  { w with saved_focus := w.focus :: w.saved_focus }

/-- Modelled from the spec: `cuda_restore_focus` pops the save stack
back into the current focus. -/
def cuda_restore_focus (w : FocusWorld) : FocusWorld :=
  match w.saved_focus with
  | [] => w
  | f :: rest => { w with focus := f, saved_focus := rest }

/-- `run_info_cuda_command`: save the current context and focus, run the
sub-command, then restore both (the cleanup
`cleanup_info_cuda_command`). -/
def run_info_cuda_command (command : FocusWorld → FocusWorld)
    (w : FocusWorld) : FocusWorld :=
  cuda_restore_focus
    (restore_current_context
      (command (cuda_save_focus (save_current_context w))))

/-- C10.  Every "info cuda" sub-command leaves the current focus and the
current context unchanged after `run_info_cuda_command` completes, and
the save stacks are balanced — provided the sub-command itself only uses
the save stacks in a balanced way (it may switch focus, current context
and ELF images internally, but does not consume the wrapper's saved
entries; all seven sub-commands only read state and temporarily switch
focus). -/
theorem C10_run_info_cuda_command (command : FocusWorld → FocusWorld)
    (w : FocusWorld)
    (hf : (command (cuda_save_focus (save_current_context w))).saved_focus
        = (cuda_save_focus (save_current_context w)).saved_focus)
    (hc : (command (cuda_save_focus
          (save_current_context w))).saved_contexts
        = (cuda_save_focus (save_current_context w)).saved_contexts) :
    (run_info_cuda_command command w).focus = w.focus ∧
    (run_info_cuda_command command w).cur_context = w.cur_context ∧
    (run_info_cuda_command command w).saved_focus = w.saved_focus ∧
    (run_info_cuda_command command w).saved_contexts
      = w.saved_contexts := by
  have hf' : (command (cuda_save_focus
      (save_current_context w))).saved_focus
      = w.focus :: w.saved_focus := by rw [hf]; rfl
  have hc' : (command (cuda_save_focus
      (save_current_context w))).saved_contexts
      = w.cur_context :: w.saved_contexts := by rw [hc]; rfl
  unfold run_info_cuda_command
  unfold restore_current_context
  rw [hc']
  unfold cuda_restore_focus
  simp only [hf']
  refine ⟨?_, ?_, ?_, ?_⟩ <;> first | rfl | trivial

/-- A sub-command that switches focus and clears the current context but
leaves the save stacks alone. -/
def exampleInfoCommand : FocusWorld → FocusWorld :=
  fun u => { u with focus := 42, cur_context := none }

/-- A concrete focus world. -/
def exampleFocusWorld : FocusWorld := ⟨7, some ctxA, [], []⟩

/-- Witness for C10 at a concrete sub-command and world. -/
theorem C10_run_info_cuda_command_witness :
    (run_info_cuda_command exampleInfoCommand exampleFocusWorld).focus
      = exampleFocusWorld.focus ∧
    (run_info_cuda_command exampleInfoCommand
      exampleFocusWorld).cur_context = exampleFocusWorld.cur_context ∧
    (run_info_cuda_command exampleInfoCommand
      exampleFocusWorld).saved_focus = exampleFocusWorld.saved_focus ∧
    (run_info_cuda_command exampleInfoCommand
      exampleFocusWorld).saved_contexts
      = exampleFocusWorld.saved_contexts :=
  C10_run_info_cuda_command exampleInfoCommand exampleFocusWorld rfl rfl
